import Mathlib

/-!
# udp2eth: a verification development

Shallow embedding of `udp2eth.cc` (a relay between a raw Ethernet packet
socket and a UDP socket) and theorems about its address parser
(`parse_url`), its socket constructor (`create_socket`) and the two drain
loops of `main`.

Conventions of the embedding

* a `std::string` is a `List Char`;
* `std::string::npos` is `none`, a found position is `some i`
  (a position is always smaller than the length, hence never equal to `npos`);
* C `int` values are `Int`;
* a function that can call `exit` returns an `Outcome`;
* the operating system is a script of answers handed to the code, and every
  system call the code issues is appended to a trace.
-/

namespace Udp2Eth

/-! ## The pieces of `std::string` that `parse_url` uses -/

/-- Position of the first occurrence of `c` in `s`
(`s.find_first_of (c)`), `none` for `string::npos`. -/
def find_first_of : List Char → Char → Option Nat
  | [], _ => none
  | x :: xs, c => if x = c then some 0 else (find_first_of xs c).map (· + 1)

/-- Position of the last occurrence of `c` in `s`
(`s.find_last_of (c)`), `none` for `string::npos`. -/
def find_last_of : List Char → Char → Option Nat
  | [], _ => none
  | x :: xs, c =>
    match find_last_of xs c with
    | some i => some (i + 1)
    | none => if x = c then some 0 else none

/-- The substring `s.substr (pos, n)`; `n = none` is the defaulted
`n = npos` ("up to the end").  The library throws `std::out_of_range`
when `pos > s.size ()`; both call sites in `parse_url` pass a position that
is at most the size (see `find_first_of_lt`), so that case is not
represented. -/
def substr (s : List Char) (pos : Nat) (n : Option Nat) : List Char :=
  match n with
  | none => s.drop pos
  | some k => (s.drop pos).take k

/-! ## Process outcomes -/

/-- What a call of a function that may call `exit` does: it returns a
value, or it ends the process with `exit (arg)`. -/
inductive Outcome (α : Type) where
  | returned : α → Outcome α
  | exited : Int → Outcome α
  deriving DecidableEq, Repr

/-- The status a parent process observes after `exit (arg)`:
the low eight bits of the argument. -/
def exit_status (arg : Int) : Int := arg % 256

/-- The return value of `parse_url` together with the two reference
parameters `host` and `port` as they are when it returns. -/
structure ParseResult where
  ret : Int
  host : List Char
  port : List Char
  deriving DecidableEq, Repr

/-- The failure path shared by both checks of `parse_url`:
`if (fail_is_fatal) exit (-1); return -1;` with `host` and `port` untouched. -/
def parse_url_fail (host port : List Char) (fail_is_fatal : Bool) : Outcome ParseResult :=
  if fail_is_fatal then Outcome.exited (-1) else Outcome.returned ⟨-1, host, port⟩

/-- The function `parse_url (url, default_url, host, port, fail_is_fatal)`.
The arguments `host` and `port` are the values the caller's variables hold
before the call.  Diagnostics written to `std::cerr` are not represented. -/
def parse_url (url default_url host port : List Char) (fail_is_fatal : Bool) :
    Outcome ParseResult :=
  -- Dissect default URL first.
  if find_first_of default_url ':' ≠ none
      ∧ find_first_of default_url ':' = find_last_of default_url ':' then
    match find_first_of default_url ':' with
    | none => parse_url_fail host port fail_is_fatal
    | some dfirst =>
      let default_host := substr default_url 0 (some dfirst)
      let default_port := substr default_url (dfirst + 1) none
      -- Now deal with the URL.
      if find_first_of url ':' ≠ find_last_of url ':' then
        parse_url_fail host port fail_is_fatal
      else
        match find_first_of url ':' with
        | none =>
          let host1 := if url ≠ [] then url else default_host
          Outcome.returned ⟨0, host1, default_port⟩
        | some ufirst =>
          let host1 := substr url 0 (some ufirst)
          let host2 := if host1 = [] then default_host else host1
          let port1 := substr url (ufirst + 1) none
          let port2 := if port1 = [] then default_port else port1
          Outcome.returned ⟨0, host2, port2⟩
  else
    parse_url_fail host port fail_is_fatal

/-! ## The words of the specification about a `host:port` text -/

/-- The part of a text before its first `:` (the whole text when it has none). -/
def before_colon (s : List Char) : List Char := s.takeWhile (· ≠ ':')

/-- The part of a text after its first `:` (empty when it has none). -/
def after_colon (s : List Char) : List Char := (s.dropWhile (· ≠ ':')).drop 1

/-! ## Constants of the system headers (Linux values) -/

def AF_INET : Int := 2
def AF_PACKET : Int := 17
def SOCK_DGRAM : Int := 2
def SOCK_RAW : Int := 3
def EAGAIN : Int := 11
def EWOULDBLOCK : Int := 11
/-- The size of `ifr.ifr_name`. -/
def IFNAMSIZ : Nat := 16

/-! ## Defaults of the program -/

def default_device_s : List Char := "wlan0".toList
def default_server_s : List Char := "0.0.0.0:1235".toList
def default_client_s : List Char := "127.0.0.1:1236".toList

/-- The text `s.c_str ()` denotes as a C string: the characters before the
first NUL.  It is what a `std::string` built from `s.c_str ()` holds and what
`strlen` measures. -/
def c_str (s : List Char) : List Char := s.takeWhile (· ≠ Char.ofNat 0)

/-! ## The observable world: system calls and diagnostics -/

/-- The record `struct sockaddr_in`. -/
structure sockaddr_in where
  sin_family : Int
  sin_port : Int
  sin_addr : Nat
  deriving DecidableEq, Repr

/-- One entry of the list `getaddrinfo` produces. -/
structure addrinfo where
  ai_family : Int
  ai_socktype : Int
  ai_protocol : Int
  ai_addr : sockaddr_in
  deriving DecidableEq, Repr

/-- The diagnostics the program writes (each stands for one message on
`std::cerr`, `perror` or `printf`). -/
inductive Msg where
  | gai_error | gai_no_addresses | ambiguous_host_port | could_not_create_socket
  | bind_failed
  | eth_unable_to_create_socket | eth_name_too_long | eth_not_found | eth_unable_to_bind
  | eth_unable_to_get_flags | eth_could_not_enter_promiscuous | entering_promiscuous
  | out_of_memory
  | select_negative
  | eth_sock_ready | eth_received | failed_to_send_to_udp_server_sock | no_udp_server_sock
  | eth_recv_zero | eth_recv_negative
  | udp_sock_ready | udp_received | failed_to_send_to_eth_sock | no_eth_sock
  | udp_recv_zero | udp_recv_negative
  deriving DecidableEq, Repr

/-- The requests passed to `ioctl`. -/
inductive IoctlReq where
  | SIOCGIFINDEX | SIOCGIFFLAGS | SIOCSIFFLAGS
  deriving DecidableEq, Repr

/-- One observable step of the process.  `sendto` carries the bytes
`buf[0 .. len)` and the destination pointer (`none` is a NULL pointer). -/
inductive Action where
  | cerr (m : Msg)
  | getaddrinfo (host port : List Char) (family socktype : Int)
  | socket (domain type protocol : Int)
  | bind_inet (fd : Int) (addr : sockaddr_in)
  | bind_ll (fd : Int) (name : List Char)
  | ioctl (fd : Int) (req : IoctlReq) (name : List Char)
  | close (fd : Int)
  | select (nfds : Int) (readfds : Option (List Int))
  | recv (fd : Int) (len : Nat)
  | sendto (fd : Int) (bytes : List Nat) (dest : Option sockaddr_in)
  | send (fd : Int) (bytes : List Nat)
  deriving DecidableEq, Repr

/-- The three globals of the program and the trace of what it has done. -/
structure State where
  eth_sock : Int
  udp_server_sock : Int
  udp_client_address : Option sockaddr_in
  trace : List Action
  deriving DecidableEq, Repr

/-- The globals as initialised: both sockets `-1`, no client address. -/
def State.init : State := ⟨-1, -1, none, []⟩

/-- Append one action to the trace. -/
def State.log (s : State) (a : Action) : State := { s with trace := s.trace ++ [a] }

/-- A run of stateful code: it returns a value in a state, or the process
ends by `exit (arg)` in a state. -/
inductive Run (α : Type) where
  | returned : State → α → Run α
  | exited : State → Int → Run α
  deriving DecidableEq, Repr

/-! ## `create_socket` -/

/-- The answers of the system to the calls of `create_socket`:
the value of `getaddrinfo`, the list it stores (`[]` is a NULL pointer, a
second element is `ai->ai_next`), the value of `socket` and of `bind`. -/
structure SocketEnv where
  gai_ret : Int
  ai : List addrinfo
  socket_ret : Int
  bind_ret : Int
  deriving DecidableEq, Repr

/-- The function `create_socket (url, default_url, socktype, attempt_bind)`.
It calls `parse_url` with the defaulted `fail_is_fatal = true` on two fresh
empty strings and does not look at its return value. -/
def create_socket (s : State) (url default_url : List Char) (socktype : Int)
    (attempt_bind : Bool) (env : SocketEnv) : Run Int :=
  match parse_url url default_url [] [] true with
  | Outcome.exited a => Run.exited s a
  | Outcome.returned r =>
    let host := r.host
    let port := r.port
    let s1 := s.log (Action.getaddrinfo host port AF_INET socktype)
    if env.gai_ret ≠ 0 then
      Run.returned (s1.log (Action.cerr Msg.gai_error)) (-1)
    else
      match env.ai with
      | [] => Run.returned (s1.log (Action.cerr Msg.gai_no_addresses)) (-1)
      | ai :: ai_next =>
        if ai_next ≠ [] then
          Run.returned (s1.log (Action.cerr Msg.ambiguous_host_port)) (-1)
        else
          let s2 := s1.log (Action.socket ai.ai_family ai.ai_socktype ai.ai_protocol)
          let sock := env.socket_ret
          if sock = -1 then
            Run.returned (s2.log (Action.cerr Msg.could_not_create_socket)) (-1)
          else if attempt_bind then
            let s3 := s2.log (Action.bind_inet sock ai.ai_addr)
            if env.bind_ret = -1 then
              Run.returned ((s3.log (Action.cerr Msg.bind_failed)).log (Action.close sock)) (-1)
            else
              Run.returned s3 sock
          else
            Run.returned s2 sock

/-! ## `open_eth_socket` -/

/-- The answers of the system to the calls of `open_eth_socket`. -/
structure EthEnv where
  socket_ret : Int
  ifindex_ret : Int
  bind_ret : Int
  getflags_ret : Int
  setflags_ret : Int
  /-- The value of `htons (ETH_P_ALL)`, which depends on the byte order of
  the host. -/
  proto : Int
  deriving DecidableEq, Repr

/-- The function `open_eth_socket (eth_name, promiscuous)`: every failure
is `exit (-1)`. -/
def open_eth_socket (s : State) (eth_name : List Char) (promiscuous : Bool)
    (env : EthEnv) : Run Int :=
  -- Create the socket.
  let s1 := s.log (Action.socket AF_PACKET SOCK_RAW env.proto)
  let sock := env.socket_ret
  if sock < 0 then
    Run.exited (s1.log (Action.cerr Msg.eth_unable_to_create_socket)) (-1)
  else
    -- Find the Ethernet interface index.
    let eth_name_len := (c_str eth_name).length
    if eth_name_len < IFNAMSIZ then
      let s2 := s1.log (Action.ioctl sock IoctlReq.SIOCGIFINDEX (c_str eth_name))
      if env.ifindex_ret = -1 then
        Run.exited ((s2.log (Action.cerr Msg.eth_not_found)).log (Action.close sock)) (-1)
      else
        let s3 := s2.log (Action.bind_ll sock (c_str eth_name))
        if env.bind_ret = -1 then
          Run.exited ((s3.log (Action.cerr Msg.eth_unable_to_bind)).log (Action.close sock)) (-1)
        else if promiscuous then
          let s4 := s3.log (Action.ioctl sock IoctlReq.SIOCGIFFLAGS (c_str eth_name))
          if env.getflags_ret = -1 then
            Run.exited
              ((s4.log (Action.cerr Msg.eth_unable_to_get_flags)).log (Action.close sock)) (-1)
          else
            let s5 := s4.log (Action.ioctl sock IoctlReq.SIOCSIFFLAGS (c_str eth_name))
            if env.setflags_ret = -1 then
              Run.exited
                ((s5.log (Action.cerr Msg.eth_could_not_enter_promiscuous)).log
                  (Action.close sock)) (-1)
            else
              Run.returned (s5.log (Action.cerr Msg.entering_promiscuous)) sock
        else
          Run.returned s3 sock
    else
      Run.exited ((s1.log (Action.cerr Msg.eth_name_too_long)).log (Action.close sock)) (-1)

/-! ## `main`: the client address -/

/-- The library functions the client-address block of `main` calls.
`inet_pton` is `some a` when it returns 1 and stores the address `a`,
`none` when it stores nothing. -/
structure Libc where
  atoi : List Char → Int
  htons : Int → Int
  inet_pton : List Char → Option Nat

/-- The options of the command line as `main` collects them. -/
structure Config where
  verbose : Bool
  device_s : List Char
  promiscuous : Bool
  server_s : List Char
  client_s : List Char
  deriving DecidableEq, Repr

/-- The block "UDP client addess" of `main`.  `new_ok` tells whether the
`new` expression yields a non-null pointer.  `memset` leaves `sin_addr = 0`
where `inet_pton` stores nothing; the value of `inet_pton` is not looked at. -/
def client_address_setup (libc : Libc) (new_ok : Bool) (cfg : Config) (s : State) :
    Run Unit :=
  match parse_url (c_str cfg.client_s) (c_str default_client_s) [] [] false with
  | Outcome.exited a => Run.exited s a
  | Outcome.returned r =>
    if r.ret = 0 then
      if new_ok = false then
        Run.returned (s.log (Action.cerr Msg.out_of_memory)) ()
      else
        let address : sockaddr_in :=
          ⟨AF_INET, libc.htons (libc.atoi r.port), (libc.inet_pton r.host).getD 0⟩
        Run.returned { s with udp_client_address := some address } ()
    else
      Run.returned s ()

/-! ## `main`: the two drain loops -/

/-- The answers of the system during one pass through the body of a drain
loop: the value of `recv`, the `errno` it leaves, the contents of `buf`
after the call, and the value of the `sendto`/`send` of that pass (used only
when the pass issues one). -/
structure Step where
  recv_ret : Int
  errno : Int
  buf : List Nat
  send_ret : Int
  deriving DecidableEq, Repr

/-- The body of the loop `while (eth_sock >= 0 && need_more)` of the
Ethernet side: one `recv` and what follows from its value.  The result is
the state and the variable `need_more` at the end of the body. -/
def eth_body (verbose : Bool) (e : Step) (s : State) (need_more : Bool) : State × Bool :=
  let s1 := s.log (Action.recv s.eth_sock 4096)
  if e.recv_ret > 0 then
    let s2 := if verbose then s1.log (Action.cerr Msg.eth_received) else s1
    -- Send to udp_server_sock...
    if s2.udp_server_sock ≥ 0 then
      let s3 := s2.log (Action.sendto s2.udp_server_sock (e.buf.take e.recv_ret.toNat)
        s2.udp_client_address)
      if e.send_ret = -1 then
        (s3.log (Action.cerr Msg.failed_to_send_to_udp_server_sock), need_more)
      else (s3, need_more)
    else
      (s2.log (Action.cerr Msg.no_udp_server_sock), need_more)
  else if e.recv_ret = -1 ∧ (e.errno = EAGAIN ∨ e.errno = EWOULDBLOCK) then
    (s1, false)
  else if e.recv_ret = 0 then
    let s2 := (s1.log (Action.cerr Msg.eth_recv_zero)).log (Action.close s1.eth_sock)
    ({ s2 with eth_sock := -1 }, need_more)
  else
    let s2 := (s1.log (Action.cerr Msg.eth_recv_negative)).log (Action.close s1.eth_sock)
    ({ s2 with eth_sock := -1 }, need_more)

/-- The loop `while (eth_sock >= 0 && need_more)` of the Ethernet side.
The script gives the answers of the system pass by pass; the result is
`none` when the loop wants another pass and the script has ended. -/
def eth_drain (verbose : Bool) : List Step → State → Bool → Option State
  | [], s, need_more => if s.eth_sock ≥ 0 ∧ need_more = true then none else some s
  | e :: rest, s, need_more =>
    if s.eth_sock ≥ 0 ∧ need_more = true then
      eth_drain verbose rest (eth_body verbose e s need_more).1
        (eth_body verbose e s need_more).2
    else some s

/-- The body of the loop `while (udp_server_sock >= 0 && need_more)` of the
UDP side. -/
def udp_body (verbose : Bool) (e : Step) (s : State) (need_more : Bool) : State × Bool :=
  let s1 := s.log (Action.recv s.udp_server_sock 4096)
  if e.recv_ret > 0 then
    let s2 := if verbose then s1.log (Action.cerr Msg.udp_received) else s1
    -- Send to eth_sock...
    if s2.eth_sock ≥ 0 then
      let s3 := s2.log (Action.send s2.eth_sock (e.buf.take e.recv_ret.toNat))
      if e.send_ret = -1 then
        (s3.log (Action.cerr Msg.failed_to_send_to_eth_sock), need_more)
      else (s3, need_more)
    else
      (s2.log (Action.cerr Msg.no_eth_sock), need_more)
  else if e.recv_ret = -1 ∧ (e.errno = EAGAIN ∨ e.errno = EWOULDBLOCK) then
    (s1, false)
  else if e.recv_ret = 0 then
    let s2 := (s1.log (Action.cerr Msg.udp_recv_zero)).log (Action.close s1.udp_server_sock)
    ({ s2 with udp_server_sock := -1 }, need_more)
  else
    let s2 :=
      (s1.log (Action.cerr Msg.udp_recv_negative)).log (Action.close s1.udp_server_sock)
    ({ s2 with udp_server_sock := -1 }, need_more)

/-- The loop `while (udp_server_sock >= 0 && need_more)` of the UDP side. -/
def udp_drain (verbose : Bool) : List Step → State → Bool → Option State
  | [], s, need_more => if s.udp_server_sock ≥ 0 ∧ need_more = true then none else some s
  | e :: rest, s, need_more =>
    if s.udp_server_sock ≥ 0 ∧ need_more = true then
      udp_drain verbose rest (udp_body verbose e s need_more).1
        (udp_body verbose e s need_more).2
    else some s

/-! ## `main`: one pass through `while (true)` -/

/-- The answers of the system during one pass through the main loop. -/
structure IterEnv where
  eth_open : EthEnv
  udp_open : SocketEnv
  select_ret : Int
  /-- The descriptors `select` finds readable. -/
  readable : List Int
  eth_script : List Step
  udp_script : List Step
  deriving DecidableEq, Repr

/-- The first block of the loop body: `if (eth_sock < 0)
eth_sock = open_eth_socket (device_s, promiscuous);`. -/
def ensure_open_eth (cfg : Config) (env : IterEnv) (s : State) : Run Unit :=
  if s.eth_sock < 0 then
    match open_eth_socket s cfg.device_s cfg.promiscuous env.eth_open with
    | Run.exited s1 a => Run.exited s1 a
    | Run.returned s1 fd => Run.returned { s1 with eth_sock := fd } ()
  else Run.returned s ()

/-- The second block of the loop body: `if (udp_server_sock < 0)
udp_server_sock = create_socket (server_s.c_str (), default_server_s.c_str ());`
with the defaulted `socktype = SOCK_DGRAM` and `attempt_bind = true`. -/
def ensure_open_udp (cfg : Config) (env : IterEnv) (s : State) : Run Unit :=
  if s.udp_server_sock < 0 then
    match create_socket s (c_str cfg.server_s) (c_str default_server_s) SOCK_DGRAM true
        env.udp_open with
    | Run.exited s1 a => Run.exited s1 a
    | Run.returned s1 fd => Run.returned { s1 with udp_server_sock := fd } ()
  else Run.returned s ()

/-- The first two blocks of the loop body, one after the other. -/
def ensure_open (cfg : Config) (env : IterEnv) (s : State) : Run Unit :=
  match ensure_open_eth cfg env s with
  | Run.exited s1 a => Run.exited s1 a
  | Run.returned s1 _ => ensure_open_udp cfg env s1

/-- The descriptors put into `isocks` by `FD_SET`. -/
def isocks (s : State) : List Int :=
  (if s.eth_sock ≥ 0 then [s.eth_sock] else [])
    ++ (if s.udp_server_sock ≥ 0 then [s.udp_server_sock] else [])

/-- The variable `highest_sock` after the two `FD_SET` blocks. -/
def highest_sock (s : State) : Int :=
  let h0 : Int := -1
  let h1 := if s.eth_sock ≥ 0 then (if s.eth_sock > h0 then s.eth_sock else h0) else h0
  if s.udp_server_sock ≥ 0 then (if s.udp_server_sock > h1 then s.udp_server_sock else h1)
  else h1

/-- The `select` call as an action: the set is passed only when
`highest_sock >= 0`. -/
def select_call (s : State) : Action :=
  Action.select (highest_sock s + 1) (if highest_sock s ≥ 0 then some (isocks s) else none)

/-- The test `FD_ISSET (fd, &isocks)` after `select`: it holds of a
descriptor that was put into the set and that `select` reports readable. -/
def fd_isset (watched readable : List Int) (fd : Int) : Bool :=
  decide (fd ∈ watched ∧ fd ∈ readable)

/-- The block `if (eth_sock >= 0 && FD_ISSET (eth_sock, &isocks))` with its
drain loop. -/
def eth_side (cfg : Config) (env : IterEnv) (watched : List Int) (s : State) : Option State :=
  if s.eth_sock ≥ 0 ∧ fd_isset watched env.readable s.eth_sock = true then
    eth_drain cfg.verbose env.eth_script
      (if cfg.verbose then s.log (Action.cerr Msg.eth_sock_ready) else s) true
  else some s

/-- The block `if (udp_server_sock >= 0 && FD_ISSET (udp_server_sock, &isocks))`
with its drain loop. -/
def udp_side (cfg : Config) (env : IterEnv) (watched : List Int) (s : State) : Option State :=
  if s.udp_server_sock ≥ 0 ∧ fd_isset watched env.readable s.udp_server_sock = true then
    udp_drain cfg.verbose env.udp_script
      (if cfg.verbose then s.log (Action.cerr Msg.udp_sock_ready) else s) true
  else some s

/-- The rest of the loop body: `select` on the descriptors of the open
sides, then the block of the Ethernet side and the block of the UDP side. -/
def wait_and_drain (cfg : Config) (env : IterEnv) (s : State) : Option (Run Unit) :=
  let watched := isocks s
  let s1 := s.log (select_call s)
  if env.select_ret < 0 then
    some (Run.exited (s1.log (Action.cerr Msg.select_negative)) (-1))
  else if env.select_ret = 0 then
    some (Run.returned s1 ())
  else
    match eth_side cfg env watched s1 with
    | none => none
    | some s2 => (udp_side cfg env watched s2).map (fun s3 => Run.returned s3 ())

/-- One pass through the body of `while (true)`. -/
def main_iteration (cfg : Config) (env : IterEnv) (s : State) : Option (Run Unit) :=
  match ensure_open cfg env s with
  | Run.exited s1 a => some (Run.exited s1 a)
  | Run.returned s1 _ => wait_and_drain cfg env s1

/-- As many passes through the main loop as the script has entries,
stopping when the process exits. -/
def main_loop (cfg : Config) : List IterEnv → State → Option (Run Unit)
  | [], s => some (Run.returned s ())
  | env :: envs, s =>
    match main_iteration cfg env s with
    | none => none
    | some (Run.exited s1 a) => some (Run.exited s1 a)
    | some (Run.returned s1 _) => main_loop cfg envs s1

/-! ## The words of the specification about reads and traces -/

/-- The pass `e` is a successful read of the payload `p`: `recv` returns the
length of `p`, which lies between 1 and 4096, and `buf` starts with `p`. -/
def reads_payload (e : Step) (p : List Nat) : Prop :=
  e.recv_ret = (p.length : Int) ∧ 1 ≤ p.length ∧ p.length ≤ 4096 ∧ e.buf.take p.length = p

instance (e : Step) (p : List Nat) : Decidable (reads_payload e p) := by
  unfold reads_payload
  infer_instance

/-- The pass `e` is a would-block result: `recv` returns -1 with `errno`
`EAGAIN` or `EWOULDBLOCK`. -/
def would_block (e : Step) : Prop :=
  e.recv_ret = -1 ∧ (e.errno = EAGAIN ∨ e.errno = EWOULDBLOCK)

instance (e : Step) : Decidable (would_block e) := by
  unfold would_block
  infer_instance

/-- The pass `e` is a terminal read: `recv` returns 0, or a negative value
that is not a would-block result. -/
def terminal_read (e : Step) : Prop :=
  e.recv_ret = 0 ∨ (e.recv_ret < 0 ∧ ¬ would_block e)

instance (e : Step) : Decidable (terminal_read e) := by
  unfold terminal_read
  infer_instance

/-- The system makes the opening of the datagram socket fail at one of the
steps after the specification has been parsed: `getaddrinfo` returns an
error, it returns no address or more than one, `socket` fails, or `bind`
fails. -/
def open_fails (env : SocketEnv) : Prop :=
  env.gai_ret ≠ 0 ∨ env.ai = [] ∨ 2 ≤ env.ai.length ∨ env.socket_ret = -1 ∨ env.bind_ret = -1

instance (env : SocketEnv) : Decidable (open_fails env) := by
  unfold open_fails
  infer_instance

/-- The actions that hand bytes to a socket. -/
def is_send : Action → Bool
  | Action.sendto _ _ _ => true
  | Action.send _ _ => true
  | _ => false

/-- The actions that read from descriptor `fd`. -/
def is_recv_on (fd : Int) : Action → Bool
  | Action.recv fd1 _ => decide (fd1 = fd)
  | _ => false

/-- The calls of `getaddrinfo`: `create_socket` issues exactly one per
call that gets past `parse_url`. -/
def is_getaddrinfo : Action → Bool
  | Action.getaddrinfo _ _ _ _ => true
  | _ => false

/-! # Theorems -/

/-! ## Facts about the string primitives -/

theorem find_first_of_eq_none {s : List Char} {c : Char} :
    find_first_of s c = none ↔ c ∉ s := by
  induction s with
  | nil => simp [find_first_of]
  | cons x xs ih =>
    by_cases h : x = c
    · simp [find_first_of, h]
    · have h2 : ¬ c = x := fun e => h e.symm
      simp [find_first_of, h, h2, ih]

theorem find_last_of_eq_none {s : List Char} {c : Char} :
    find_last_of s c = none ↔ c ∉ s := by
  induction s with
  | nil => simp [find_last_of]
  | cons x xs ih =>
    by_cases hm : c ∈ xs
    · have : find_last_of xs c ≠ none := fun e => (ih.mp e) hm
      obtain ⟨i, hi⟩ := Option.ne_none_iff_exists'.mp this
      simp [find_last_of, hi, hm]
    · have hn := ih.mpr hm
      by_cases h : x = c
      · simp [find_last_of, hn, h]
      · have h2 : ¬ c = x := fun e => h e.symm
        simp [find_last_of, hn, h, h2, hm]

/-- A found position is a valid index, so `pos + 1 ≤ size` at the
`substr (pos + 1)` calls of `parse_url`. -/
theorem find_first_of_lt {s : List Char} {c : Char} {i : Nat}
    (h : find_first_of s c = some i) : i < s.length := by
  induction s generalizing i with
  | nil => simp [find_first_of] at h
  | cons x xs ih =>
    by_cases hx : x = c
    · simp [find_first_of, hx] at h
      subst h
      simp
    · simp only [find_first_of, hx, if_false, Option.map_eq_some'] at h
      obtain ⟨j, hj, rfl⟩ := h
      have := ih hj
      simp
      omega

theorem find_first_of_append {a b : List Char} {c : Char} (ha : c ∉ a) :
    find_first_of (a ++ c :: b) c = some a.length := by
  induction a with
  | nil => simp [find_first_of]
  | cons x xs ih =>
    have hx : ¬ x = c := fun e => ha (by simp [e])
    have hxs : c ∉ xs := fun e => ha (by simp [e])
    simp [find_first_of, hx, ih hxs]

theorem find_last_of_append {a b : List Char} {c : Char} (hb : c ∉ b) :
    find_last_of (a ++ c :: b) c = some a.length := by
  induction a with
  | nil => simp [find_last_of, find_last_of_eq_none.mpr hb]
  | cons x xs ih => simp [find_last_of, ih]

theorem count_eq_one_split {s : List Char} {c : Char} (h : s.count c = 1) :
    ∃ a b, s = a ++ c :: b ∧ c ∉ a ∧ c ∉ b := by
  induction s with
  | nil => simp at h
  | cons x xs ih =>
    by_cases hx : x = c
    · subst hx
      refine ⟨[], xs, rfl, by simp, ?_⟩
      rw [List.count_cons_self] at h
      exact List.count_eq_zero.mp (by omega)
    · rw [List.count_cons_of_ne (fun e => hx e.symm)] at h
      obtain ⟨a, b, rfl, ha, hb⟩ := ih h
      refine ⟨x :: a, b, rfl, ?_, hb⟩
      simp only [List.mem_cons, not_or]
      exact ⟨fun e => hx e.symm, ha⟩

theorem count_split {a b : List Char} {c : Char} (ha : c ∉ a) (hb : c ∉ b) :
    (a ++ c :: b).count c = 1 := by
  simp [List.count_append, List.count_eq_zero.mpr ha, List.count_eq_zero.mpr hb]

theorem find_ne_of_two_le_count {s : List Char} {c : Char} (h : 2 ≤ s.count c) :
    find_first_of s c ≠ find_last_of s c := by
  induction s with
  | nil => simp at h
  | cons x xs ih =>
    by_cases hx : x = c
    · subst hx
      rw [List.count_cons_self] at h
      have hm : x ∈ xs := List.count_pos_iff.mp (by omega)
      have : find_last_of xs x ≠ none := fun e => (find_last_of_eq_none.mp e) hm
      obtain ⟨i, hi⟩ := Option.ne_none_iff_exists'.mp this
      simp [find_first_of, find_last_of, hi]
    · rw [List.count_cons_of_ne (fun e => hx e.symm)] at h
      have hm : c ∈ xs := List.count_pos_iff.mp (by omega)
      have h1 : find_last_of xs c ≠ none := fun e => (find_last_of_eq_none.mp e) hm
      have h2 : find_first_of xs c ≠ none := fun e => (find_first_of_eq_none.mp e) hm
      obtain ⟨i, hi⟩ := Option.ne_none_iff_exists'.mp h1
      obtain ⟨j, hj⟩ := Option.ne_none_iff_exists'.mp h2
      have := ih h
      simp only [find_first_of, find_last_of, hx, if_false, hi, hj, Option.map_some'] at this ⊢
      intro e
      apply this
      simp only [Option.some.injEq] at e ⊢
      omega

theorem before_colon_append {a b : List Char} (ha : ':' ∉ a) :
    before_colon (a ++ ':' :: b) = a := by
  induction a with
  | nil => simp [before_colon]
  | cons x xs ih =>
    have hx : ¬ x = ':' := fun e => ha (by simp [e])
    have hxs : ':' ∉ xs := fun e => ha (by simp [e])
    have := ih hxs
    simp only [before_colon] at this ⊢
    simpa [List.takeWhile, hx] using this

theorem after_colon_append {a b : List Char} (ha : ':' ∉ a) :
    after_colon (a ++ ':' :: b) = b := by
  induction a with
  | nil => simp [after_colon]
  | cons x xs ih =>
    have hx : ¬ x = ':' := fun e => ha (by simp [e])
    have hxs : ':' ∉ xs := fun e => ha (by simp [e])
    have := ih hxs
    simp only [after_colon] at this ⊢
    simpa [List.dropWhile, hx] using this

theorem before_colon_of_not_mem {s : List Char} (h : ':' ∉ s) : before_colon s = s := by
  simp only [before_colon, List.takeWhile_eq_self_iff]
  intro x hx
  have : x ≠ ':' := fun e => h (e ▸ hx)
  simpa using this

/-- The value `parse_url` computes on a well-formed default and an input
with exactly one separator. -/
theorem parse_url_split (uh up dh dp h0 p0 : List Char) (f : Bool)
    (hdh : ':' ∉ dh) (hdp : ':' ∉ dp) (huh : ':' ∉ uh) (hup : ':' ∉ up) :
    parse_url (uh ++ ':' :: up) (dh ++ ':' :: dp) h0 p0 f
      = Outcome.returned ⟨0, if uh = [] then dh else uh, if up = [] then dp else up⟩ := by
  simp [parse_url, find_first_of_append hdh, find_last_of_append hdp,
    find_first_of_append huh, find_last_of_append hup, substr]

/-- The value `parse_url` computes on a well-formed default and an input
without separator. -/
theorem parse_url_plain (u dh dp h0 p0 : List Char) (f : Bool)
    (hdh : ':' ∉ dh) (hdp : ':' ∉ dp) (hu : ':' ∉ u) :
    parse_url u (dh ++ ':' :: dp) h0 p0 f
      = Outcome.returned ⟨0, if u = [] then dh else u, dp⟩ := by
  simp [parse_url, find_first_of_append hdh, find_last_of_append hdp,
    find_first_of_eq_none.mpr hu, find_last_of_eq_none.mpr hu, substr]

/-- A default without exactly one separator fails the first check. -/
theorem parse_url_bad_default (u d h0 p0 : List Char) (f : Bool) (hd : d.count ':' ≠ 1) :
    parse_url u d h0 p0 f = parse_url_fail h0 p0 f := by
  have hcond : ¬ (find_first_of d ':' ≠ none ∧ find_first_of d ':' = find_last_of d ':') := by
    rintro ⟨h1, h2⟩
    rcases Nat.lt_or_ge (d.count ':') 2 with hlt | hge
    · have h0 : d.count ':' = 0 := by omega
      exact h1 (find_first_of_eq_none.mpr (List.count_eq_zero.mp h0))
    · exact find_ne_of_two_le_count hge h2
  simp only [parse_url, hcond, if_false]

/-- An input with two or more separators fails the second check. -/
theorem parse_url_bad_url (u d h0 p0 : List Char) (f : Bool) (hd : d.count ':' = 1)
    (hu : 2 ≤ u.count ':') : parse_url u d h0 p0 f = parse_url_fail h0 p0 f := by
  obtain ⟨dh, dp, rfl, hdh, hdp⟩ := count_eq_one_split hd
  have hne := find_ne_of_two_le_count hu
  simp [parse_url, find_first_of_append hdh, find_last_of_append hdp, hne]

/-- The value of `parse_url` on a well-formed default and an input with at
most one separator, in the words of the specification. -/
theorem parse_url_value (u dh dp h0 p0 : List Char) (f : Bool)
    (hd : (dh ++ ':' :: dp).count ':' = 1) (hu : u.count ':' ≤ 1) :
    parse_url u (dh ++ ':' :: dp) h0 p0 f
      = Outcome.returned ⟨0,
          if before_colon u ≠ [] then before_colon u else dh,
          if ':' ∈ u ∧ after_colon u ≠ [] then after_colon u else dp⟩ := by
  have hsum : dh.count ':' + dp.count ':' = 0 := by
    simp [List.count_append] at hd
    omega
  have hdh : ':' ∉ dh := List.count_eq_zero.mp (by omega)
  have hdp : ':' ∉ dp := List.count_eq_zero.mp (by omega)
  rcases Nat.lt_or_ge (u.count ':') 1 with hlt | hge
  · have hnm : ':' ∉ u := List.count_eq_zero.mp (by omega)
    rw [parse_url_plain u dh dp h0 p0 f hdh hdp hnm, before_colon_of_not_mem hnm]
    by_cases hempty : u = [] <;> simp [hempty, hnm]
  · obtain ⟨uh, up, rfl, huh, hup⟩ := count_eq_one_split (show u.count ':' = 1 by omega)
    rw [parse_url_split uh up dh dp h0 p0 f hdh hdp huh hup,
      before_colon_append huh, after_colon_append huh]
    by_cases h1 : uh = [] <;> by_cases h2 : up = [] <;> simp [h1, h2]

/-! ## The address parser -/

/-- C1: for a default `dh:dp` with exactly one `:` and an input with at most
one `:`, `parse_url` returns 0; the host is the part of the input before the
`:` (the whole input when it has none) when that part is non-empty and `dh`
otherwise; the port is the part after the `:` when the input has a `:` and
that part is non-empty, and `dp` otherwise. -/
theorem parse_url_fills_missing_from_default (u dh dp h0 p0 : List Char)
    (fail_is_fatal : Bool) (hd : (dh ++ ':' :: dp).count ':' = 1) (hu : u.count ':' ≤ 1) :
    parse_url u (dh ++ ':' :: dp) h0 p0 fail_is_fatal
      = Outcome.returned ⟨0,
          if before_colon u ≠ [] then before_colon u else dh,
          if ':' ∈ u ∧ after_colon u ≠ [] then after_colon u else dp⟩ :=
  parse_url_value u dh dp h0 p0 fail_is_fatal hd hu

theorem parse_url_fills_missing_from_default_witness :
    parse_url "example.org:".toList ("0.0.0.0".toList ++ ':' :: "1235".toList) [] [] true
      = Outcome.returned ⟨0,
          if before_colon "example.org:".toList ≠ [] then before_colon "example.org:".toList
          else "0.0.0.0".toList,
          if ':' ∈ "example.org:".toList ∧ after_colon "example.org:".toList ≠ []
          then after_colon "example.org:".toList else "1235".toList⟩ :=
  parse_url_fills_missing_from_default "example.org:".toList "0.0.0.0".toList "1235".toList
    [] [] true (by decide) (by decide)

/-- C2 as stated fails: with `fail_is_fatal = false` a default without
separator makes `parse_url` return -1 instead of ending the process. -/
theorem parse_url_malformed_default_not_always_fatal :
    List.count ':' "localhost".toList ≠ 1
      ∧ parse_url "10.0.0.1:7".toList "localhost".toList [] [] false
          = Outcome.returned ⟨-1, [], []⟩ := by
  decide

/-- C2 amended: for a default that does not hold exactly one `:`,
`parse_url` ends the process with `exit (-1)`, a non-zero status, when
`fail_is_fatal` is true, and returns -1 with host and port unassigned when it
is false; `create_socket`, which calls it with the flag true, ends the
process in the state it was called in, before any call of `getaddrinfo`,
`socket` or `bind`. -/
theorem parse_url_malformed_default (u d h0 p0 : List Char) (hd : d.count ':' ≠ 1) :
    parse_url u d h0 p0 true = Outcome.exited (-1)
      ∧ exit_status (-1) ≠ 0
      ∧ parse_url u d h0 p0 false = Outcome.returned ⟨-1, h0, p0⟩
      ∧ ∀ (s : State) (socktype : Int) (attempt_bind : Bool) (env : SocketEnv),
          create_socket s u d socktype attempt_bind env = Run.exited s (-1) := by
  refine ⟨?_, by decide, ?_, ?_⟩
  · rw [parse_url_bad_default u d h0 p0 true hd]; rfl
  · rw [parse_url_bad_default u d h0 p0 false hd]; rfl
  · intro s socktype attempt_bind env
    simp only [create_socket, parse_url_bad_default u d [] [] true hd, parse_url_fail, if_true]

theorem parse_url_malformed_default_witness :
    List.count ':' "a:b:c".toList ≠ 1
      ∧ (parse_url [] "a:b:c".toList [] [] true = Outcome.exited (-1)
      ∧ exit_status (-1) ≠ 0
      ∧ parse_url [] "a:b:c".toList [] [] false = Outcome.returned ⟨-1, [], []⟩
      ∧ ∀ (s : State) (socktype : Int) (attempt_bind : Bool) (env : SocketEnv),
          create_socket s [] "a:b:c".toList socktype attempt_bind env = Run.exited s (-1)) :=
  ⟨by decide, parse_url_malformed_default [] "a:b:c".toList [] [] (by decide)⟩

/-- C3: for a default with exactly one `:` and an input with two or more,
`parse_url` ends the process with `exit (-1)`, a non-zero status, when
`fail_is_fatal` is true and returns -1 when it is false, and the host and
port it hands back are the values the caller passed in. -/
theorem parse_url_rejects_second_separator (u d h0 p0 : List Char) (hd : d.count ':' = 1)
    (hu : 2 ≤ u.count ':') :
    parse_url u d h0 p0 true = Outcome.exited (-1)
      ∧ exit_status (-1) ≠ 0
      ∧ parse_url u d h0 p0 false = Outcome.returned ⟨-1, h0, p0⟩ := by
  refine ⟨?_, by decide, ?_⟩
  · rw [parse_url_bad_url u d h0 p0 true hd hu]; rfl
  · rw [parse_url_bad_url u d h0 p0 false hd hu]; rfl

theorem parse_url_rejects_second_separator_witness :
    List.count ':' default_client_s = 1 ∧ 2 ≤ List.count ':' "::1".toList
      ∧ (parse_url "::1".toList default_client_s "old".toList "9".toList true
            = Outcome.exited (-1)
          ∧ exit_status (-1) ≠ 0
          ∧ parse_url "::1".toList default_client_s "old".toList "9".toList false
            = Outcome.returned ⟨-1, "old".toList, "9".toList⟩) :=
  ⟨by decide, by decide,
    parse_url_rejects_second_separator "::1".toList default_client_s "old".toList "9".toList
      (by decide) (by decide)⟩

/-- C4 as stated fails: the default `:` has exactly one `:`, the empty
input has none, `parse_url` returns 0, and both host and port are empty. -/
theorem parse_url_resolved_can_be_empty :
    List.count ':' [':'] = 1 ∧ List.count ':' ([] : List Char) ≤ 1
      ∧ parse_url [] [':'] [] [] true = Outcome.returned ⟨0, [], []⟩ := by
  decide

/-- C4 amended: when the default is `dh:dp` with exactly one `:` and both
`dh` and `dp` non-empty, then for every input with at most one `:`
`parse_url` returns 0 with a non-empty host and a non-empty port. -/
theorem parse_url_resolved_nonempty (u dh dp h0 p0 : List Char) (fail_is_fatal : Bool)
    (hd : (dh ++ ':' :: dp).count ':' = 1) (hdh : dh ≠ []) (hdp : dp ≠ [])
    (hu : u.count ':' ≤ 1) :
    ∃ host port, parse_url u (dh ++ ':' :: dp) h0 p0 fail_is_fatal
        = Outcome.returned ⟨0, host, port⟩ ∧ host ≠ [] ∧ port ≠ [] := by
  refine ⟨_, _, parse_url_value u dh dp h0 p0 fail_is_fatal hd hu, ?_, ?_⟩
  · by_cases h : before_colon u = [] <;> simp [h, hdh]
  · by_cases h : ':' ∈ u ∧ after_colon u ≠ []
    · rw [if_pos h]
      exact h.2
    · rw [if_neg h]
      exact hdp

theorem parse_url_resolved_nonempty_witness :
    ∃ host port, parse_url [':'] ("0.0.0.0".toList ++ ':' :: "1235".toList) [] [] true
        = Outcome.returned ⟨0, host, port⟩ ∧ host ≠ [] ∧ port ≠ [] :=
  parse_url_resolved_nonempty [':'] "0.0.0.0".toList "1235".toList [] [] true
    (by decide) (by decide) (by decide) (by decide)

/-- C10: for a default with exactly one `:` and non-empty `host` and `port`
without `:`, `parse_url` on `host:port` returns 0 with exactly `host` and
`port`, whatever the default holds. -/
theorem parse_url_inverts_concatenation (host port d h0 p0 : List Char) (fail_is_fatal : Bool)
    (hd : d.count ':' = 1) (hh : host ≠ []) (hp : port ≠ [])
    (hhc : ':' ∉ host) (hpc : ':' ∉ port) :
    parse_url (host ++ ':' :: port) d h0 p0 fail_is_fatal
      = Outcome.returned ⟨0, host, port⟩ := by
  obtain ⟨dh, dp, rfl, hdh, hdp⟩ := count_eq_one_split hd
  rw [parse_url_split host port dh dp h0 p0 fail_is_fatal hdh hdp hhc hpc]
  simp [hh, hp]

theorem parse_url_inverts_concatenation_witness :
    parse_url ("10.1.2.3".toList ++ ':' :: "4000".toList) default_server_s [] [] true
      = Outcome.returned ⟨0, "10.1.2.3".toList, "4000".toList⟩ :=
  parse_url_inverts_concatenation "10.1.2.3".toList "4000".toList default_server_s [] [] true
    (by decide) (by decide) (by decide) (by decide) (by decide)

/-! ## The drain loops -/

/-- What one pass of the Ethernet loop does on a successful read while the
UDP side is open: one `recv`, one `sendto` of the bytes read to the client
address, a diagnostic exactly when the send fails; no descriptor changes. -/
theorem eth_body_data (verbose : Bool) (e : Step) (s : State)
    (hother : s.udp_server_sock ≥ 0) (hpos : e.recv_ret > 0) :
    ∃ added, (eth_body verbose e s true).2 = true
      ∧ (eth_body verbose e s true).1.eth_sock = s.eth_sock
      ∧ (eth_body verbose e s true).1.udp_server_sock = s.udp_server_sock
      ∧ (eth_body verbose e s true).1.udp_client_address = s.udp_client_address
      ∧ (eth_body verbose e s true).1.trace = s.trace ++ added
      ∧ added.filter is_send
          = [Action.sendto s.udp_server_sock (e.buf.take e.recv_ret.toNat) s.udp_client_address]
      ∧ added.countP (is_recv_on s.eth_sock) = 1
      ∧ (Action.cerr Msg.failed_to_send_to_udp_server_sock ∈ added ↔ e.send_ret = -1) := by
  have hpos2 : 0 < e.recv_ret := hpos
  cases verbose <;> by_cases hs : e.send_ret = -1
  · exact ⟨[Action.recv s.eth_sock 4096, Action.sendto s.udp_server_sock
        (e.buf.take e.recv_ret.toNat) s.udp_client_address,
        Action.cerr Msg.failed_to_send_to_udp_server_sock],
      by simp [eth_body, State.log, hother, hpos2, hs, is_send, is_recv_on]⟩
  · exact ⟨[Action.recv s.eth_sock 4096, Action.sendto s.udp_server_sock
        (e.buf.take e.recv_ret.toNat) s.udp_client_address],
      by simp [eth_body, State.log, hother, hpos2, hs, is_send, is_recv_on]⟩
  · exact ⟨[Action.recv s.eth_sock 4096, Action.cerr Msg.eth_received,
        Action.sendto s.udp_server_sock (e.buf.take e.recv_ret.toNat) s.udp_client_address,
        Action.cerr Msg.failed_to_send_to_udp_server_sock],
      by simp [eth_body, State.log, hother, hpos2, hs, is_send, is_recv_on]⟩
  · exact ⟨[Action.recv s.eth_sock 4096, Action.cerr Msg.eth_received,
        Action.sendto s.udp_server_sock (e.buf.take e.recv_ret.toNat) s.udp_client_address],
      by simp [eth_body, State.log, hother, hpos2, hs, is_send, is_recv_on]⟩

/-- What one pass of the UDP loop does on a successful read while the
Ethernet side is open: one `recv`, one `send` of the bytes read, a
diagnostic exactly when the send fails; no descriptor changes. -/
theorem udp_body_data (verbose : Bool) (e : Step) (s : State)
    (hother : s.eth_sock ≥ 0) (hpos : e.recv_ret > 0) :
    ∃ added, (udp_body verbose e s true).2 = true
      ∧ (udp_body verbose e s true).1.eth_sock = s.eth_sock
      ∧ (udp_body verbose e s true).1.udp_server_sock = s.udp_server_sock
      ∧ (udp_body verbose e s true).1.udp_client_address = s.udp_client_address
      ∧ (udp_body verbose e s true).1.trace = s.trace ++ added
      ∧ added.filter is_send = [Action.send s.eth_sock (e.buf.take e.recv_ret.toNat)]
      ∧ added.countP (is_recv_on s.udp_server_sock) = 1
      ∧ (Action.cerr Msg.failed_to_send_to_eth_sock ∈ added ↔ e.send_ret = -1) := by
  have hpos2 : 0 < e.recv_ret := hpos
  cases verbose <;> by_cases hs : e.send_ret = -1
  · exact ⟨[Action.recv s.udp_server_sock 4096,
        Action.send s.eth_sock (e.buf.take e.recv_ret.toNat),
        Action.cerr Msg.failed_to_send_to_eth_sock],
      by simp [udp_body, State.log, hother, hpos2, hs, is_send, is_recv_on]⟩
  · exact ⟨[Action.recv s.udp_server_sock 4096,
        Action.send s.eth_sock (e.buf.take e.recv_ret.toNat)],
      by simp [udp_body, State.log, hother, hpos2, hs, is_send, is_recv_on]⟩
  · exact ⟨[Action.recv s.udp_server_sock 4096, Action.cerr Msg.udp_received,
        Action.send s.eth_sock (e.buf.take e.recv_ret.toNat),
        Action.cerr Msg.failed_to_send_to_eth_sock],
      by simp [udp_body, State.log, hother, hpos2, hs, is_send, is_recv_on]⟩
  · exact ⟨[Action.recv s.udp_server_sock 4096, Action.cerr Msg.udp_received,
        Action.send s.eth_sock (e.buf.take e.recv_ret.toNat)],
      by simp [udp_body, State.log, hother, hpos2, hs, is_send, is_recv_on]⟩

theorem eth_drain_stop (verbose : Bool) (script : List Step) (s : State) :
    eth_drain verbose script s false = some s := by
  cases script <;> simp [eth_drain]

theorem udp_drain_stop (verbose : Bool) (script : List Step) (s : State) :
    udp_drain verbose script s false = some s := by
  cases script <;> simp [eth_drain, udp_drain]

theorem eth_drain_closed (verbose : Bool) (script : List Step) (s : State) (nm : Bool)
    (h : s.eth_sock < 0) : eth_drain verbose script s nm = some s := by
  have : ¬ (s.eth_sock ≥ 0) := by omega
  cases script <;> simp [eth_drain, this]

theorem udp_drain_closed (verbose : Bool) (script : List Step) (s : State) (nm : Bool)
    (h : s.udp_server_sock < 0) : udp_drain verbose script s nm = some s := by
  have : ¬ (s.udp_server_sock ≥ 0) := by omega
  cases script <;> simp [udp_drain, this]

theorem eth_drain_cons (verbose : Bool) (e : Step) (rest : List Step) (s : State)
    (h : s.eth_sock ≥ 0) :
    eth_drain verbose (e :: rest) s true
      = eth_drain verbose rest (eth_body verbose e s true).1 (eth_body verbose e s true).2 := by
  rw [eth_drain]
  simp [h]

theorem udp_drain_cons (verbose : Bool) (e : Step) (rest : List Step) (s : State)
    (h : s.udp_server_sock ≥ 0) :
    udp_drain verbose (e :: rest) s true
      = udp_drain verbose rest (udp_body verbose e s true).1 (udp_body verbose e s true).2 := by
  rw [udp_drain]
  simp [h]

/-- What one pass of the Ethernet loop does on a would-block result. -/
theorem eth_body_would_block (verbose : Bool) (e : Step) (s : State) (nm : Bool)
    (hwb : would_block e) :
    eth_body verbose e s nm = (s.log (Action.recv s.eth_sock 4096), false) := by
  obtain ⟨h1, h2⟩ := hwb
  simp [eth_body, h1, h2]

/-- What one pass of the UDP loop does on a would-block result. -/
theorem udp_body_would_block (verbose : Bool) (e : Step) (s : State) (nm : Bool)
    (hwb : would_block e) :
    udp_body verbose e s nm = (s.log (Action.recv s.udp_server_sock 4096), false) := by
  obtain ⟨h1, h2⟩ := hwb
  simp [udp_body, h1, h2]

theorem reads_payload_bytes {e : Step} {p : List Nat} (h : reads_payload e p) :
    e.recv_ret > 0 ∧ e.buf.take e.recv_ret.toNat = p := by
  obtain ⟨h1, h2, _, h4⟩ := h
  refine ⟨by omega, ?_⟩
  rw [h1]
  simpa using h4

theorem reads_payload_le {script : List Step} {P : List (List Nat)}
    (h : List.Forall₂ reads_payload script P) : ∀ p ∈ P, p.length ≤ 4096 := by
  induction h with
  | nil => simp
  | cons h1 _ ih =>
    intro p hp
    rcases List.mem_cons.mp hp with rfl | hp
    · exact h1.2.2.1
    · exact ih p hp

/-- The Ethernet loop on a script of successful reads followed by a
would-block result, from any state with both sides open. -/
theorem eth_drain_reads (verbose : Bool) (wb : Step) (tail : List Step)
    (hwb : would_block wb) {script : List Step} {P : List (List Nat)}
    (hreads : List.Forall₂ reads_payload script P) :
    ∀ s : State, s.eth_sock ≥ 0 → s.udp_server_sock ≥ 0 →
      ∃ s1 added, eth_drain verbose (script ++ wb :: tail) s true = some s1
        ∧ s1.eth_sock = s.eth_sock ∧ s1.udp_server_sock = s.udp_server_sock
        ∧ s1.udp_client_address = s.udp_client_address
        ∧ s1.trace = s.trace ++ added
        ∧ added.filter is_send
            = P.map (fun p => Action.sendto s.udp_server_sock p s.udp_client_address)
        ∧ added.countP (is_recv_on s.eth_sock) = P.length + 1 := by
  induction hreads with
  | nil =>
    intro s heth _
    refine ⟨s.log (Action.recv s.eth_sock 4096), [Action.recv s.eth_sock 4096], ?_⟩
    rw [List.nil_append, eth_drain_cons verbose wb tail s heth,
      eth_body_would_block verbose wb s true hwb, eth_drain_stop]
    simp [State.log, is_send, is_recv_on]
  | @cons e p script P h1 _ ih =>
    intro s heth hudp
    obtain ⟨hpos, hbytes⟩ := reads_payload_bytes h1
    obtain ⟨a1, hnm, he, hu, hc, ht, hf, hr, _⟩ := eth_body_data verbose e s hudp hpos
    obtain ⟨s1, a2, hrun, he2, hu2, hc2, ht2, hf2, hr2⟩ :=
      ih (eth_body verbose e s true).1 (by rw [he]; exact heth) (by rw [hu]; exact hudp)
    refine ⟨s1, a1 ++ a2, ?_, ?_, ?_, ?_, ?_, ?_, ?_⟩
    · rw [List.cons_append, eth_drain_cons verbose e _ s heth, hnm]
      exact hrun
    · rw [he2, he]
    · rw [hu2, hu]
    · rw [hc2, hc]
    · rw [ht2, ht, List.append_assoc]
    · rw [List.filter_append, hf, hf2, hu, hc, hbytes]
      rfl
    · rw [List.countP_append, hr, ← he, hr2, List.length_cons]
      omega

/-- The UDP loop on a script of successful reads followed by a would-block
result, from any state with both sides open. -/
theorem udp_drain_reads (verbose : Bool) (wb : Step) (tail : List Step)
    (hwb : would_block wb) {script : List Step} {P : List (List Nat)}
    (hreads : List.Forall₂ reads_payload script P) :
    ∀ s : State, s.eth_sock ≥ 0 → s.udp_server_sock ≥ 0 →
      ∃ s1 added, udp_drain verbose (script ++ wb :: tail) s true = some s1
        ∧ s1.eth_sock = s.eth_sock ∧ s1.udp_server_sock = s.udp_server_sock
        ∧ s1.udp_client_address = s.udp_client_address
        ∧ s1.trace = s.trace ++ added
        ∧ added.filter is_send = P.map (fun p => Action.send s.eth_sock p)
        ∧ added.countP (is_recv_on s.udp_server_sock) = P.length + 1 := by
  induction hreads with
  | nil =>
    intro s _ hudp
    refine ⟨s.log (Action.recv s.udp_server_sock 4096),
      [Action.recv s.udp_server_sock 4096], ?_⟩
    rw [List.nil_append, udp_drain_cons verbose wb tail s hudp,
      udp_body_would_block verbose wb s true hwb, udp_drain_stop]
    simp [State.log, is_send, is_recv_on]
  | @cons e p script P h1 _ ih =>
    intro s heth hudp
    obtain ⟨hpos, hbytes⟩ := reads_payload_bytes h1
    obtain ⟨a1, hnm, he, hu, hc, ht, hf, hr, _⟩ := udp_body_data verbose e s heth hpos
    obtain ⟨s1, a2, hrun, he2, hu2, hc2, ht2, hf2, hr2⟩ :=
      ih (udp_body verbose e s true).1 (by rw [he]; exact heth) (by rw [hu]; exact hudp)
    refine ⟨s1, a1 ++ a2, ?_, ?_, ?_, ?_, ?_, ?_, ?_⟩
    · rw [List.cons_append, udp_drain_cons verbose e _ s hudp, hnm]
      exact hrun
    · rw [he2, he]
    · rw [hu2, hu]
    · rw [hc2, hc]
    · rw [ht2, ht, List.append_assoc]
    · rw [List.filter_append, hf, hf2, he, hbytes]
      rfl
    · rw [List.countP_append, hr, ← hu, hr2, List.length_cons]
      omega

/-- C5: for every script of K successful reads of payloads `P` (each of 1
to 4096 bytes) followed by a would-block result, with both sides open, each
drain loop returns; the sends it has issued are exactly K, on the other
side's descriptor, in read order, the i-th carrying exactly the i-th payload
(for the Ethernet loop to the installed client address); it has issued K + 1
reads; and no unit sent is longer than 4096 bytes. -/
theorem drain_forwards_each_read (verbose : Bool) (s : State) (script : List Step)
    (P : List (List Nat)) (wb : Step) (tail : List Step)
    (heth : s.eth_sock ≥ 0) (hudp : s.udp_server_sock ≥ 0)
    (hreads : List.Forall₂ reads_payload script P) (hwb : would_block wb) :
    (∀ addr, s.udp_client_address = some addr →
      ∃ s1 added, eth_drain verbose (script ++ wb :: tail) s true = some s1
        ∧ s1.trace = s.trace ++ added
        ∧ added.filter is_send
            = P.map (fun p => Action.sendto s.udp_server_sock p (some addr))
        ∧ added.countP (is_recv_on s.eth_sock) = P.length + 1
        ∧ ∀ fd bytes dest, Action.sendto fd bytes dest ∈ added → bytes.length ≤ 4096)
    ∧ (∃ s1 added, udp_drain verbose (script ++ wb :: tail) s true = some s1
        ∧ s1.trace = s.trace ++ added
        ∧ added.filter is_send = P.map (fun p => Action.send s.eth_sock p)
        ∧ added.countP (is_recv_on s.udp_server_sock) = P.length + 1
        ∧ ∀ fd bytes, Action.send fd bytes ∈ added → bytes.length ≤ 4096) := by
  have hle := reads_payload_le hreads
  constructor
  · intro addr haddr
    obtain ⟨s1, added, hrun, _, _, _, ht, hf, hr⟩ :=
      eth_drain_reads verbose wb tail hwb hreads s heth hudp
    rw [haddr] at hf
    refine ⟨s1, added, hrun, ht, hf, hr, ?_⟩
    intro fd bytes dest hmem
    have : Action.sendto fd bytes dest ∈ added.filter is_send :=
      List.mem_filter.mpr ⟨hmem, rfl⟩
    rw [hf] at this
    obtain ⟨p, hp, heq⟩ := List.mem_map.mp this
    cases heq
    exact hle _ hp
  · obtain ⟨s1, added, hrun, _, _, _, ht, hf, hr⟩ :=
      udp_drain_reads verbose wb tail hwb hreads s heth hudp
    refine ⟨s1, added, hrun, ht, hf, hr, ?_⟩
    intro fd bytes hmem
    have : Action.send fd bytes ∈ added.filter is_send :=
      List.mem_filter.mpr ⟨hmem, rfl⟩
    rw [hf] at this
    obtain ⟨p, hp, heq⟩ := List.mem_map.mp this
    cases heq
    exact hle _ hp

theorem drain_forwards_each_read_witness :
    (∃ s1 added,
        eth_drain false ([⟨2, 0, [10, 20, 0, 0], 0⟩, ⟨1, 0, [7], -1⟩] ++ ⟨-1, EAGAIN, [], 0⟩ :: [])
          (State.mk 3 4 (some ⟨AF_INET, 1236, 2130706433⟩) []) true = some s1
        ∧ s1.trace = [] ++ added
        ∧ added.filter is_send
            = [[10, 20], [7]].map
                (fun p => Action.sendto 4 p (some ⟨AF_INET, 1236, 2130706433⟩))
        ∧ added.countP (is_recv_on 3) = [[10, 20], [7]].length + 1
        ∧ ∀ fd bytes dest, Action.sendto fd bytes dest ∈ added → bytes.length ≤ 4096)
    ∧ (∃ s1 added,
        udp_drain false ([⟨2, 0, [10, 20, 0, 0], 0⟩, ⟨1, 0, [7], -1⟩] ++ ⟨-1, EAGAIN, [], 0⟩ :: [])
          (State.mk 3 4 (some ⟨AF_INET, 1236, 2130706433⟩) []) true = some s1
        ∧ s1.trace = [] ++ added
        ∧ added.filter is_send = [[10, 20], [7]].map (fun p => Action.send 3 p)
        ∧ added.countP (is_recv_on 4) = [[10, 20], [7]].length + 1
        ∧ ∀ fd bytes, Action.send fd bytes ∈ added → bytes.length ≤ 4096) :=
  have h := drain_forwards_each_read false (State.mk 3 4 (some ⟨AF_INET, 1236, 2130706433⟩) [])
    [⟨2, 0, [10, 20, 0, 0], 0⟩, ⟨1, 0, [7], -1⟩] [[10, 20], [7]] ⟨-1, EAGAIN, [], 0⟩ []
    (by decide) (by decide)
    (List.Forall₂.cons (by decide) (List.Forall₂.cons (by decide) List.Forall₂.nil))
    (by decide)
  ⟨h.1 ⟨AF_INET, 1236, 2130706433⟩ rfl, h.2⟩

/-- What one pass of the Ethernet loop does on a terminal read. -/
theorem eth_body_terminal (verbose : Bool) (e : Step) (s : State) (hterm : terminal_read e) :
    eth_body verbose e s true
      = ({ s with
            eth_sock := -1
            trace := s.trace ++ [Action.recv s.eth_sock 4096,
              Action.cerr (if e.recv_ret = 0 then Msg.eth_recv_zero else Msg.eth_recv_negative),
              Action.close s.eth_sock] }, true) := by
  have hnpos : ¬ (e.recv_ret > 0) := by
    rcases hterm with h | ⟨h, _⟩ <;> omega
  have hnwb : ¬ (e.recv_ret = -1 ∧ (e.errno = EAGAIN ∨ e.errno = EWOULDBLOCK)) := by
    rcases hterm with h | ⟨_, h⟩
    · rintro ⟨h1, _⟩
      omega
    · exact h
  by_cases h0 : e.recv_ret = 0 <;> simp [eth_body, State.log, hnpos, hnwb, h0]

/-- What one pass of the UDP loop does on a terminal read. -/
theorem udp_body_terminal (verbose : Bool) (e : Step) (s : State) (hterm : terminal_read e) :
    udp_body verbose e s true
      = ({ s with
            udp_server_sock := -1
            trace := s.trace ++ [Action.recv s.udp_server_sock 4096,
              Action.cerr (if e.recv_ret = 0 then Msg.udp_recv_zero else Msg.udp_recv_negative),
              Action.close s.udp_server_sock] }, true) := by
  have hnpos : ¬ (e.recv_ret > 0) := by
    rcases hterm with h | ⟨h, _⟩ <;> omega
  have hnwb : ¬ (e.recv_ret = -1 ∧ (e.errno = EAGAIN ∨ e.errno = EWOULDBLOCK)) := by
    rcases hterm with h | ⟨_, h⟩
    · rintro ⟨h1, _⟩
      omega
    · exact h
  by_cases h0 : e.recv_ret = 0 <;> simp [udp_body, State.log, hnpos, hnwb, h0]

/-- C7: in either drain loop, started on an open side with any script left,
(1, 2) a terminal read (0, or negative and not would-block) makes the loop
return with that side's descriptor closed and its handle -1, the other
handle unchanged; (3, 4) a would-block result makes the loop return with
both handles unchanged; (5, 6) a successful read whose send fails is
reported, changes neither handle, and the loop goes on with the next read. -/
theorem drain_handle_transitions (verbose : Bool) (term wb e : Step) (rest : List Step)
    (hterm : terminal_read term) (hwb : would_block wb)
    (hpos : e.recv_ret > 0) (hfail : e.send_ret = -1) :
    (∀ s : State, s.eth_sock ≥ 0 →
      eth_drain verbose (term :: rest) s true
        = some { s with
            eth_sock := -1
            trace := s.trace ++ [Action.recv s.eth_sock 4096,
              Action.cerr
                (if term.recv_ret = 0 then Msg.eth_recv_zero else Msg.eth_recv_negative),
              Action.close s.eth_sock] })
    ∧ (∀ s : State, s.udp_server_sock ≥ 0 →
      udp_drain verbose (term :: rest) s true
        = some { s with
            udp_server_sock := -1
            trace := s.trace ++ [Action.recv s.udp_server_sock 4096,
              Action.cerr
                (if term.recv_ret = 0 then Msg.udp_recv_zero else Msg.udp_recv_negative),
              Action.close s.udp_server_sock] })
    ∧ (∀ s : State, s.eth_sock ≥ 0 →
      eth_drain verbose (wb :: rest) s true = some (s.log (Action.recv s.eth_sock 4096)))
    ∧ (∀ s : State, s.udp_server_sock ≥ 0 →
      udp_drain verbose (wb :: rest) s true
        = some (s.log (Action.recv s.udp_server_sock 4096)))
    ∧ (∀ s : State, s.eth_sock ≥ 0 → s.udp_server_sock ≥ 0 →
      ∃ s1, eth_drain verbose (e :: rest) s true = eth_drain verbose rest s1 true
        ∧ s1.eth_sock = s.eth_sock ∧ s1.udp_server_sock = s.udp_server_sock
        ∧ Action.cerr Msg.failed_to_send_to_udp_server_sock ∈ s1.trace)
    ∧ (∀ s : State, s.eth_sock ≥ 0 → s.udp_server_sock ≥ 0 →
      ∃ s1, udp_drain verbose (e :: rest) s true = udp_drain verbose rest s1 true
        ∧ s1.eth_sock = s.eth_sock ∧ s1.udp_server_sock = s.udp_server_sock
        ∧ Action.cerr Msg.failed_to_send_to_eth_sock ∈ s1.trace) := by
  refine ⟨?_, ?_, ?_, ?_, ?_, ?_⟩
  · intro s hs
    rw [eth_drain_cons verbose term rest s hs, eth_body_terminal verbose term s hterm]
    exact eth_drain_closed verbose rest _ true (by show (-1 : Int) < 0; decide)
  · intro s hs
    rw [udp_drain_cons verbose term rest s hs, udp_body_terminal verbose term s hterm]
    exact udp_drain_closed verbose rest _ true (by show (-1 : Int) < 0; decide)
  · intro s hs
    rw [eth_drain_cons verbose wb rest s hs, eth_body_would_block verbose wb s true hwb,
      eth_drain_stop]
  · intro s hs
    rw [udp_drain_cons verbose wb rest s hs, udp_body_would_block verbose wb s true hwb,
      udp_drain_stop]
  · intro s heth hudp
    obtain ⟨added, hnm, he, hu, _, ht, _, _, hmem⟩ := eth_body_data verbose e s hudp hpos
    refine ⟨(eth_body verbose e s true).1, ?_, he, hu, ?_⟩
    · rw [eth_drain_cons verbose e rest s heth, hnm]
    · rw [ht]
      exact List.mem_append_right _ (hmem.mpr hfail)
  · intro s heth hudp
    obtain ⟨added, hnm, he, hu, _, ht, _, _, hmem⟩ := udp_body_data verbose e s heth hpos
    refine ⟨(udp_body verbose e s true).1, ?_, he, hu, ?_⟩
    · rw [udp_drain_cons verbose e rest s hudp, hnm]
    · rw [ht]
      exact List.mem_append_right _ (hmem.mpr hfail)

theorem drain_handle_transitions_witness :
    terminal_read ⟨-1, 104, [], 0⟩ ∧ would_block ⟨-1, EWOULDBLOCK, [], 0⟩
      ∧ eth_drain true [⟨-1, 104, [], 0⟩] (State.mk 3 4 none []) true
          = some (State.mk (-1) 4 none
              [Action.recv 3 4096, Action.cerr Msg.eth_recv_negative, Action.close 3])
      ∧ udp_drain true [⟨-1, EWOULDBLOCK, [], 0⟩] (State.mk 3 4 none []) true
          = some (State.mk 3 4 none [Action.recv 4 4096])
      ∧ ∃ s1, udp_drain true [⟨5, 0, [1, 2, 3, 4, 5], -1⟩] (State.mk 3 4 none []) true
            = udp_drain true [] s1 true
          ∧ s1.eth_sock = 3 ∧ s1.udp_server_sock = 4
          ∧ Action.cerr Msg.failed_to_send_to_eth_sock ∈ s1.trace :=
  have h := drain_handle_transitions true ⟨-1, 104, [], 0⟩ ⟨-1, EWOULDBLOCK, [], 0⟩
    ⟨5, 0, [1, 2, 3, 4, 5], -1⟩ [] (by decide) (by decide) (by decide) (by decide)
  ⟨by decide, by decide, h.1 (State.mk 3 4 none []) (by decide),
    h.2.2.2.1 (State.mk 3 4 none []) (by decide),
    h.2.2.2.2.2 (State.mk 3 4 none []) (by decide) (by decide)⟩

/-! ## The client address -/

/-- C6, the code at the failing input: with the client specification
`a:b:c` no client address is installed, both sockets open in the first pass
of the main loop, and on one Ethernet frame of three bytes followed by a
would-block result the Ethernet loop calls `sendto` on the UDP socket with
a NULL destination; when that call returns -1 the failure is reported. -/
theorem no_client_address_still_sends :
    ∀ libc : Libc,
      client_address_setup libc true
          ⟨false, default_device_s, false, default_server_s, "a:b:c".toList⟩ State.init
        = Run.returned State.init ()
      ∧ ∃ s1,
          main_loop ⟨false, default_device_s, false, default_server_s, "a:b:c".toList⟩
            [⟨⟨3, 0, 0, 0, 0, 768⟩, ⟨0, [⟨2, 2, 17, ⟨2, 1235, 0⟩⟩], 4, 0⟩, 1, [3],
              [⟨3, 0, [1, 2, 3], -1⟩, ⟨-1, EAGAIN, [], 0⟩], []⟩]
            State.init = some (Run.returned s1 ())
          ∧ s1.eth_sock = 3 ∧ s1.udp_server_sock = 4 ∧ s1.udp_client_address = none
          ∧ s1.trace.filter is_send = [Action.sendto 4 [1, 2, 3] none]
          ∧ s1.trace.countP (is_recv_on 3) = 2
          ∧ Action.cerr Msg.failed_to_send_to_udp_server_sock ∈ s1.trace := by
  intro libc
  refine ⟨rfl, _, rfl, ?_⟩
  decide

/-- A client host that `inet_pton` does not accept still installs a client
address: the all-zero address with the given port. -/
theorem unresolved_client_host_installs_address (libc : Libc) (new_ok : Bool) (cfg : Config)
    (s : State) (host port : List Char)
    (hparse : parse_url (c_str cfg.client_s) (c_str default_client_s) [] [] false
      = Outcome.returned ⟨0, host, port⟩)
    (hnew : new_ok = true) (hpton : libc.inet_pton host = none) :
    client_address_setup libc new_ok cfg s
      = Run.returned
          { s with udp_client_address := some (sockaddr_in.mk AF_INET (libc.htons (libc.atoi port)) 0) }
          () := by
  simp [client_address_setup, hparse, hnew, hpton]

/-! ## Opening the datagram socket -/

theorem parse_url_ok (u d h0 p0 : List Char) (f : Bool) (hd : d.count ':' = 1)
    (hu : u.count ':' ≤ 1) :
    ∃ host port, parse_url u d h0 p0 f = Outcome.returned ⟨0, host, port⟩ := by
  obtain ⟨dh, dp, rfl, _, _⟩ := count_eq_one_split hd
  exact ⟨_, _, parse_url_value u dh dp h0 p0 f hd hu⟩

/-- Every return of `create_socket` has issued exactly one `getaddrinfo`
and has changed nothing of the state but the trace. -/
theorem create_socket_returned (s s1 : State) (url d : List Char) (socktype : Int)
    (attempt_bind : Bool) (env : SocketEnv) (fd : Int)
    (h : create_socket s url d socktype attempt_bind env = Run.returned s1 fd) :
    ∃ added, s1 = { s with trace := s.trace ++ added }
      ∧ added.countP is_getaddrinfo = 1 := by
  unfold create_socket at h
  cases hp : parse_url url d [] [] true with
  | exited a => simp [hp] at h
  | returned r =>
    simp only [hp] at h
    by_cases hg : env.gai_ret = 0
    · cases hai : env.ai with
      | nil =>
        simp [hg, hai, State.log] at h
        exact ⟨_, h.1.symm, by simp [is_getaddrinfo]⟩
      | cons ai rest =>
        by_cases hrest : rest = []
        · by_cases hsock : env.socket_ret = -1
          · simp [hg, hai, hrest, hsock, State.log] at h
            exact ⟨_, h.1.symm, by simp [is_getaddrinfo]⟩
          · cases attempt_bind
            · simp [hg, hai, hrest, hsock, State.log] at h
              exact ⟨_, h.1.symm, by simp [is_getaddrinfo]⟩
            · by_cases hbind : env.bind_ret = -1
              · simp [hg, hai, hrest, hsock, hbind, State.log] at h
                exact ⟨_, h.1.symm, by simp [is_getaddrinfo]⟩
              · simp [hg, hai, hrest, hsock, hbind, State.log] at h
                exact ⟨_, h.1.symm, by simp [is_getaddrinfo]⟩
        · simp [hg, hai, hrest, State.log] at h
          exact ⟨_, h.1.symm, by simp [is_getaddrinfo]⟩
    · simp [hg, State.log] at h
      exact ⟨_, h.1.symm, by simp [is_getaddrinfo]⟩

/-- On a specification with two or more separators `create_socket` ends the
process in the state it was called in. -/
theorem create_socket_bad_spec_exits (s : State) (u d : List Char) (socktype : Int)
    (attempt_bind : Bool) (env : SocketEnv) (hd : d.count ':' = 1) (hu : 2 ≤ u.count ':') :
    create_socket s u d socktype attempt_bind env = Run.exited s (-1) := by
  simp only [create_socket, parse_url_bad_url u d [] [] true hd hu, parse_url_fail, if_true]

/-- With the specification parsed and a failing system, `create_socket`
returns -1 after one `getaddrinfo`. -/
theorem create_socket_open_fails (s : State) (url d : List Char) (socktype : Int)
    (env : SocketEnv) (hd : d.count ':' = 1) (hu : url.count ':' ≤ 1) (hfail : open_fails env) :
    ∃ added, create_socket s url d socktype true env
        = Run.returned { s with trace := s.trace ++ added } (-1)
      ∧ added.countP is_getaddrinfo = 1 := by
  obtain ⟨host, port, hp⟩ := parse_url_ok url d [] [] true hd hu
  unfold create_socket
  simp only [hp]
  by_cases hg : env.gai_ret = 0
  · cases hai : env.ai with
    | nil => exact ⟨_, by simp [hg, State.log]; rfl, by simp [is_getaddrinfo]⟩
    | cons ai rest =>
      by_cases hrest : rest = []
      · by_cases hsock : env.socket_ret = -1
        · exact ⟨_, by simp [hg, hrest, hsock, State.log]; rfl, by simp [is_getaddrinfo]⟩
        · have hbind : env.bind_ret = -1 := by
            rcases hfail with h | h | h | h | h
            · exact absurd hg h
            · rw [hai] at h
              cases h
            · rw [hai, hrest] at h
              simp at h
            · exact absurd h hsock
            · exact h
          exact ⟨_, by simp [hg, hrest, hsock, hbind, State.log]; rfl,
            by simp [is_getaddrinfo]⟩
      · exact ⟨_, by simp [hg, hrest, State.log]; rfl, by simp [is_getaddrinfo]⟩
  · exact ⟨_, by simp [hg, State.log]; rfl, by simp [is_getaddrinfo]⟩

/-- With the specification parsed and no failing step, `create_socket`
returns the descriptor `socket` gave. -/
theorem create_socket_succeeds (s : State) (url d : List Char) (socktype : Int)
    (env : SocketEnv) (hd : d.count ':' = 1) (hu : url.count ':' ≤ 1)
    (hok : ¬ open_fails env) :
    ∃ added, create_socket s url d socktype true env
        = Run.returned { s with trace := s.trace ++ added } env.socket_ret := by
  obtain ⟨host, port, hp⟩ := parse_url_ok url d [] [] true hd hu
  simp only [open_fails, not_or, not_not] at hok
  obtain ⟨hg, hne, hlen, hsock, hbind⟩ := hok
  unfold create_socket
  simp only [hp]
  cases hai : env.ai with
  | nil => exact absurd hai hne
  | cons ai rest =>
    have hrest : rest = [] := by
      rw [hai] at hlen
      cases rest with
      | nil => rfl
      | cons x xs => simp at hlen
    exact ⟨_, by simp [hg, hrest, hsock, hbind, State.log]; rfl⟩

theorem eth_body_keeps_udp (verbose : Bool) (e : Step) (s : State) (nm : Bool) :
    (eth_body verbose e s nm).1.udp_server_sock = s.udp_server_sock := by
  unfold eth_body
  simp only [State.log]
  split_ifs <;> rfl

theorem udp_body_keeps_eth (verbose : Bool) (e : Step) (s : State) (nm : Bool) :
    (udp_body verbose e s nm).1.eth_sock = s.eth_sock := by
  unfold udp_body
  simp only [State.log]
  split_ifs <;> rfl

/-- The Ethernet loop never touches the UDP handle. -/
theorem eth_drain_keeps_udp (verbose : Bool) (script : List Step) :
    ∀ (s s1 : State) (nm : Bool), eth_drain verbose script s nm = some s1 →
      s1.udp_server_sock = s.udp_server_sock := by
  induction script with
  | nil =>
    intro s s1 nm h
    by_cases hc : s.eth_sock ≥ 0 ∧ nm = true
    · simp [eth_drain, hc] at h
    · simp only [eth_drain, hc, if_false, Option.some.injEq] at h
      rw [← h]
  | cons e rest ih =>
    intro s s1 nm h
    by_cases hc : s.eth_sock ≥ 0 ∧ nm = true
    · simp only [eth_drain, hc, and_self, if_true] at h
      rw [ih _ _ _ h, eth_body_keeps_udp]
    · simp only [eth_drain, hc, if_false, Option.some.injEq] at h
      rw [← h]

/-- The UDP loop never touches the Ethernet handle. -/
theorem udp_drain_keeps_eth (verbose : Bool) (script : List Step) :
    ∀ (s s1 : State) (nm : Bool), udp_drain verbose script s nm = some s1 →
      s1.eth_sock = s.eth_sock := by
  induction script with
  | nil =>
    intro s s1 nm h
    by_cases hc : s.udp_server_sock ≥ 0 ∧ nm = true
    · simp [udp_drain, hc] at h
    · simp only [udp_drain, hc, if_false, Option.some.injEq] at h
      rw [← h]
  | cons e rest ih =>
    intro s s1 nm h
    by_cases hc : s.udp_server_sock ≥ 0 ∧ nm = true
    · simp only [udp_drain, hc, and_self, if_true] at h
      rw [ih _ _ _ h, udp_body_keeps_eth]
    · simp only [udp_drain, hc, if_false, Option.some.injEq] at h
      rw [← h]

/-- The block of the Ethernet side never touches the UDP handle. -/
theorem eth_side_keeps_udp (cfg : Config) (env : IterEnv) (watched : List Int)
    (s s1 : State) (h : eth_side cfg env watched s = some s1) :
    s1.udp_server_sock = s.udp_server_sock := by
  unfold eth_side at h
  split_ifs at h with hc hv
  · rw [eth_drain_keeps_udp _ _ _ _ _ h]
    rfl
  · exact eth_drain_keeps_udp _ _ _ _ _ h
  · simp only [Option.some.injEq] at h
    rw [← h]

/-- The block of the UDP side does nothing while the UDP handle is closed. -/
theorem udp_side_closed (cfg : Config) (env : IterEnv) (watched : List Int) (s : State)
    (h : s.udp_server_sock < 0) : udp_side cfg env watched s = some s := by
  have : ¬ (s.udp_server_sock ≥ 0) := by omega
  simp [udp_side, this]

/-- A pass that starts its wait step with the UDP handle closed ends with
the UDP handle unchanged. -/
theorem wait_and_drain_udp_closed (cfg : Config) (env : IterEnv) (s s2 : State)
    (h : s.udp_server_sock < 0) (hr : wait_and_drain cfg env s = some (Run.returned s2 ())) :
    s2.udp_server_sock = s.udp_server_sock := by
  unfold wait_and_drain at hr
  simp only at hr
  by_cases hneg : env.select_ret < 0
  · simp [hneg] at hr
  · by_cases hzero : env.select_ret = 0
    · rw [if_neg hneg, if_pos hzero] at hr
      simp only [Option.some.injEq, Run.returned.injEq] at hr
      rw [← hr.1]
      rfl
    · rw [if_neg hneg, if_neg hzero] at hr
      cases hes : eth_side cfg env (isocks s) (s.log (select_call s)) with
      | none => simp [hes] at hr
      | some sm =>
        have hk : sm.udp_server_sock = s.udp_server_sock := by
          rw [eth_side_keeps_udp _ _ _ _ _ hes]
          rfl
        rw [hes] at hr
        simp only [udp_side_closed cfg env _ sm (by rw [hk]; exact h), Option.map_some',
          Option.some.injEq, Run.returned.injEq] at hr
        rw [← hr.1]
        exact hk

theorem default_server_s_one_colon : (c_str default_server_s).count ':' = 1 := by decide

/-- C8 as stated fails at the parsing step: on the server specification
`a:b:c`, with a system on which every later step would succeed,
`create_socket` ends the process with `exit (-1)`, a non-zero status, and so
does the pass of the main loop that calls it. -/
theorem create_socket_parse_failure_exits :
    2 ≤ List.count ':' "a:b:c".toList
      ∧ create_socket State.init "a:b:c".toList default_server_s SOCK_DGRAM true
          ⟨0, [⟨2, 2, 17, ⟨2, 1235, 0⟩⟩], 4, 0⟩
        = Run.exited State.init (-1)
      ∧ exit_status (-1) ≠ 0
      ∧ main_iteration ⟨false, default_device_s, false, "a:b:c".toList, []⟩
          ⟨⟨3, 0, 0, 0, 0, 768⟩, ⟨0, [⟨2, 2, 17, ⟨2, 1235, 0⟩⟩], 4, 0⟩, 0, [], [], []⟩
          (State.mk 3 (-1) none [])
        = some (Run.exited (State.mk 3 (-1) none []) (-1)) := by
  decide

/-- C8 amended: when the server specification has at most one `:` (and the
default exactly one) and the opening fails at a step after parsing
(`getaddrinfo` error, no address, more than one address, `socket`, `bind`),
(1) `create_socket` returns -1 after one `getaddrinfo` and the process goes
on; (2) the second block of the loop body leaves the UDP handle at -1 and
the Ethernet handle as it was; (3) the pass goes on to the `select` call,
(4) which watches no descriptor but the Ethernet one, and (5) on a timeout
ends there; (6) the UDP handle is still -1 when the pass ends; (7) a later
pass that finds the handle below 0 calls `create_socket` again and takes
the descriptor it returns.  (8) Every specification with two or more `:`
instead makes `create_socket` end the process with `exit (-1)`, a non-zero
status, in the state it was called in, whatever the system would answer,
and so does the second block of the loop body when it calls it. -/
theorem datagram_open_failure_not_fatal (cfg : Config) (env : IterEnv) (s : State)
    (d : List Char) (hd : d.count ':' = 1) (hu : (c_str cfg.server_s).count ':' ≤ 1)
    (hfail : open_fails env.udp_open) (hudp : s.udp_server_sock < 0) :
    (∀ socktype, ∃ added,
        create_socket s (c_str cfg.server_s) d socktype true env.udp_open
          = Run.returned { s with trace := s.trace ++ added } (-1)
        ∧ added.countP is_getaddrinfo = 1)
    ∧ (∃ s1, ensure_open_udp cfg env s = Run.returned s1 ()
        ∧ s1.udp_server_sock = -1 ∧ s1.eth_sock = s.eth_sock
        ∧ (∀ s0, ensure_open_eth cfg env s0 = Run.returned s () →
            main_iteration cfg env s0 = wait_and_drain cfg env s1)
        ∧ (∀ fd ∈ isocks s1, fd = s.eth_sock)
        ∧ (env.select_ret = 0 →
            wait_and_drain cfg env s1 = some (Run.returned (s1.log (select_call s1)) ()))
        ∧ (∀ s2, wait_and_drain cfg env s1 = some (Run.returned s2 ()) →
            s2.udp_server_sock = -1)
        ∧ ∀ (env2 : IterEnv) (s2 : State), s2.udp_server_sock < 0 →
            ¬ open_fails env2.udp_open →
            ∃ s3, ensure_open_udp cfg env2 s2 = Run.returned s3 ()
              ∧ s3.udp_server_sock = env2.udp_open.socket_ret)
    ∧ (∀ (u : List Char) (s2 : State) (socktype : Int) (attempt_bind : Bool)
          (env2 : SocketEnv), 2 ≤ u.count ':' →
        create_socket s2 u d socktype attempt_bind env2 = Run.exited s2 (-1))
    ∧ exit_status (-1) ≠ 0
    ∧ ∀ (cfg2 : Config) (env2 : IterEnv) (s2 : State),
        2 ≤ (c_str cfg2.server_s).count ':' → s2.udp_server_sock < 0 →
        ensure_open_udp cfg2 env2 s2 = Run.exited s2 (-1) := by
  refine ⟨fun socktype => create_socket_open_fails s _ d socktype _ hd hu hfail, ?_,
    fun u s2 socktype attempt_bind env2 h2 =>
      create_socket_bad_spec_exits s2 u d socktype attempt_bind env2 hd h2,
    by decide,
    fun cfg2 env2 s2 h2 hs2 => by
      simp only [ensure_open_udp, hs2, if_true,
        create_socket_bad_spec_exits s2 (c_str cfg2.server_s) (c_str default_server_s)
          SOCK_DGRAM true env2.udp_open default_server_s_one_colon h2]⟩
  obtain ⟨added, hcs, _⟩ := create_socket_open_fails s (c_str cfg.server_s)
    (c_str default_server_s) SOCK_DGRAM env.udp_open default_server_s_one_colon hu hfail
  have hens : ensure_open_udp cfg env s
      = Run.returned { s with trace := s.trace ++ added, udp_server_sock := -1 } () := by
    simp only [ensure_open_udp, hudp, if_true, hcs]
  refine ⟨_, hens, rfl, rfl, ?_, ?_, ?_, ?_, ?_⟩
  · intro s0 h0
    simp only [main_iteration, ensure_open, h0, hens]
  · intro fd hfd
    by_cases he : s.eth_sock ≥ 0 <;> simp [isocks, he] at hfd
    exact hfd
  · intro hsel
    simp [wait_and_drain, hsel]
  · intro s2 h2
    exact wait_and_drain_udp_closed cfg env _ s2 (by show (-1 : Int) < 0; decide) h2
  · intro env2 s2 hs2 hok
    obtain ⟨added2, hcs2⟩ := create_socket_succeeds s2 (c_str cfg.server_s)
      (c_str default_server_s) SOCK_DGRAM env2.udp_open default_server_s_one_colon hu hok
    refine ⟨{ s2 with trace := s2.trace ++ added2, udp_server_sock := env2.udp_open.socket_ret },
      ?_, rfl⟩
    simp only [ensure_open_udp, hs2, if_true, hcs2]

theorem datagram_open_failure_not_fatal_witness :
    open_fails (SocketEnv.mk (-2) [] 0 0)
      ∧ (∃ s1, ensure_open_udp ⟨false, default_device_s, false, "localhost:9000".toList, []⟩
            ⟨⟨3, 0, 0, 0, 0, 768⟩, ⟨-2, [], 0, 0⟩, 0, [], [], []⟩ (State.mk 3 (-1) none [])
          = Run.returned s1 ()
        ∧ s1.udp_server_sock = -1 ∧ s1.eth_sock = 3)
      ∧ create_socket (State.mk 3 (-1) none []) "::1".toList default_server_s SOCK_DGRAM true
          ⟨0, [⟨2, 2, 17, ⟨2, 1235, 0⟩⟩], 4, 0⟩
        = Run.exited (State.mk 3 (-1) none []) (-1) :=
  have h := datagram_open_failure_not_fatal
    ⟨false, default_device_s, false, "localhost:9000".toList, []⟩
    ⟨⟨3, 0, 0, 0, 0, 768⟩, ⟨-2, [], 0, 0⟩, 0, [], [], []⟩ (State.mk 3 (-1) none [])
    default_server_s (by decide) (by decide) (by decide) (by decide)
  ⟨by decide,
    ⟨h.2.1.choose, h.2.1.choose_spec.1, h.2.1.choose_spec.2.1, h.2.1.choose_spec.2.2.1⟩,
    h.2.2.1 "::1".toList (State.mk 3 (-1) none []) SOCK_DGRAM true
      ⟨0, [⟨2, 2, 17, ⟨2, 1235, 0⟩⟩], 4, 0⟩ (by decide)⟩

/-! ## Reopening the datagram side -/

theorem udp_body_positive (verbose : Bool) (e : Step) (s : State) (hpos : e.recv_ret > 0) :
    (udp_body verbose e s true).2 = true
      ∧ (udp_body verbose e s true).1.udp_server_sock = s.udp_server_sock := by
  have hpos2 : 0 < e.recv_ret := hpos
  unfold udp_body
  simp only [State.log, hpos, hpos2, if_true]
  split_ifs <;> exact ⟨rfl, rfl⟩

/-- The UDP loop on successful reads followed by a terminal read returns
with the UDP handle closed. -/
theorem udp_drain_terminal (verbose : Bool) (term : Step) (rest : List Step)
    (hterm : terminal_read term) (pre : List Step) :
    ∀ s : State, s.udp_server_sock ≥ 0 → (∀ e ∈ pre, e.recv_ret > 0) →
      ∃ s1, udp_drain verbose (pre ++ term :: rest) s true = some s1
        ∧ s1.udp_server_sock = -1 ∧ s1.eth_sock = s.eth_sock := by
  induction pre with
  | nil =>
    intro s hs _
    rw [List.nil_append, udp_drain_cons verbose term rest s hs,
      udp_body_terminal verbose term s hterm,
      udp_drain_closed verbose rest _ true (by show (-1 : Int) < 0; decide)]
    exact ⟨_, rfl, rfl, rfl⟩
  | cons e pre ih =>
    intro s hs hpre
    obtain ⟨hnm, hu⟩ := udp_body_positive verbose e s (hpre e (List.mem_cons_self _ _))
    obtain ⟨s1, hrun, hclosed, heth⟩ := ih (udp_body verbose e s true).1
      (by rw [hu]; exact hs) (fun x hx => hpre x (List.mem_cons_of_mem _ hx))
    refine ⟨s1, ?_, hclosed, ?_⟩
    · rw [List.cons_append, udp_drain_cons verbose e _ s hs, hnm]
      exact hrun
    · rw [heth, udp_body_keeps_eth]

/-- A return of `open_eth_socket` has changed nothing of the state but the
trace. -/
theorem open_eth_socket_returned (s s1 : State) (name : List Char) (promiscuous : Bool)
    (env : EthEnv) (fd : Int)
    (h : open_eth_socket s name promiscuous env = Run.returned s1 fd) :
    s1.udp_server_sock = s.udp_server_sock ∧ s1.udp_client_address = s.udp_client_address := by
  unfold open_eth_socket at h
  simp only [State.log] at h
  split_ifs at h <;> simp only [Run.returned.injEq, reduceCtorEq] at h <;>
    (obtain ⟨h1, _⟩ := h; rw [← h1]; exact ⟨rfl, rfl⟩)

/-- The first block of the loop body never touches the UDP handle. -/
theorem ensure_open_eth_keeps_udp (cfg : Config) (env : IterEnv) (s s1 : State)
    (h : ensure_open_eth cfg env s = Run.returned s1 ()) :
    s1.udp_server_sock = s.udp_server_sock := by
  unfold ensure_open_eth at h
  split_ifs at h with hc
  · cases ho : open_eth_socket s cfg.device_s cfg.promiscuous env.eth_open with
    | exited s2 a => simp [ho] at h
    | returned s2 fd =>
      simp only [ho, Run.returned.injEq, and_true] at h
      rw [← h]
      exact (open_eth_socket_returned _ _ _ _ _ _ ho).1
  · simp only [Run.returned.injEq, and_true] at h
    rw [← h]

theorem le_highest_sock (s : State) (h : s.udp_server_sock ≥ 0) :
    highest_sock s ≥ 0 := by
  unfold highest_sock
  simp only
  split_ifs <;> omega

/-- C9 as stated fails: from a state with both sides open, a pass in which
the Ethernet read fails with `ENETDOWN` and the UDP read returns 0 ends with
both handles closed; in the next pass the interface is not found, so
`open_eth_socket` ends the process with `exit (-1)`, a non-zero status, and
the datagram open has not been called at all. -/
theorem datagram_reopen_can_be_preempted :
    ∃ s1 s2,
      main_iteration ⟨false, default_device_s, false, default_server_s, default_client_s⟩
          ⟨⟨3, 0, 0, 0, 0, 768⟩, ⟨0, [⟨2, 2, 17, ⟨2, 1235, 0⟩⟩], 4, 0⟩, 2, [3, 4],
            [⟨-1, 100, [], 0⟩], [⟨0, 0, [], 0⟩]⟩
          (State.mk 3 4 none [])
        = some (Run.returned s1 ())
      ∧ s1.udp_server_sock = -1
      ∧ main_iteration ⟨false, default_device_s, false, default_server_s, default_client_s⟩
          ⟨⟨3, -1, 0, 0, 0, 768⟩, ⟨0, [⟨2, 2, 17, ⟨2, 1235, 0⟩⟩], 4, 0⟩, 0, [], [], []⟩ s1
        = some (Run.exited s2 (-1))
      ∧ exit_status (-1) ≠ 0
      ∧ s2.trace.countP is_getaddrinfo = 0 := by
  refine ⟨_, _, rfl, ?_, rfl, ?_, ?_⟩ <;> decide

/-- C9 amended: let the UDP handle be open when a pass reaches its wait
step, let `select` report it readable, let the Ethernet block of the pass
complete, and let the UDP reads of the pass be successful ones followed by a
terminal one.  Then the pass ends, without exit, with the UDP handle at -1.
If the first block of the next pass returns (the Ethernet handle is open, or
its reopening succeeds), the second block is one call of `create_socket`;
and if that call returns a descriptor `d >= 0` after its one `getaddrinfo`,
the handle is `d`, the pass goes on to the wait step, and `d` is in the set
handed to `select`. -/
theorem datagram_side_reopens (cfg : Config) (env1 env2 : IterEnv) (s sm : State)
    (pre rest : List Step) (term : Step)
    (hopen : s.udp_server_sock ≥ 0) (hsel : env1.select_ret > 0)
    (hready : s.udp_server_sock ∈ env1.readable)
    (heth : eth_side cfg env1 (isocks s) (s.log (select_call s)) = some sm)
    (hscript : env1.udp_script = pre ++ term :: rest)
    (hpre : ∀ e ∈ pre, e.recv_ret > 0) (hterm : terminal_read term) :
    ∃ s1, wait_and_drain cfg env1 s = some (Run.returned s1 ())
      ∧ s1.udp_server_sock = -1
      ∧ ∀ s2, ensure_open_eth cfg env2 s1 = Run.returned s2 () →
          (ensure_open cfg env2 s1
            = match create_socket s2 (c_str cfg.server_s) (c_str default_server_s) SOCK_DGRAM
                true env2.udp_open with
              | Run.exited s3 a => Run.exited s3 a
              | Run.returned s3 fd => Run.returned { s3 with udp_server_sock := fd } ())
          ∧ ∀ s3 d, create_socket s2 (c_str cfg.server_s) (c_str default_server_s) SOCK_DGRAM
                true env2.udp_open = Run.returned s3 d → d ≥ 0 →
              ensure_open cfg env2 s1 = Run.returned { s3 with udp_server_sock := d } ()
              ∧ (∃ added, s3.trace = s2.trace ++ added ∧ added.countP is_getaddrinfo = 1)
              ∧ main_iteration cfg env2 s1
                  = wait_and_drain cfg env2 { s3 with udp_server_sock := d }
              ∧ d ∈ isocks { s3 with udp_server_sock := d }
              ∧ select_call { s3 with udp_server_sock := d }
                  = Action.select (highest_sock { s3 with udp_server_sock := d } + 1)
                      (some (isocks { s3 with udp_server_sock := d })) := by
  have hsm : sm.udp_server_sock = s.udp_server_sock := by
    rw [eth_side_keeps_udp _ _ _ _ _ heth]
    rfl
  have hsm0 : sm.udp_server_sock ≥ 0 := by rw [hsm]; exact hopen
  have hwatched : s.udp_server_sock ∈ isocks s := by
    simp [isocks, hopen]
  have hisset : fd_isset (isocks s) env1.readable sm.udp_server_sock = true := by
    rw [hsm]
    simp [fd_isset, hwatched, hready]
  obtain ⟨s1, hrun, hclosed, _⟩ := udp_drain_terminal cfg.verbose term rest hterm pre
    (if cfg.verbose then sm.log (Action.cerr Msg.udp_sock_ready) else sm)
    (by split_ifs <;> exact hsm0) hpre
  have hside : udp_side cfg env1 (isocks s) sm = some s1 := by
    unfold udp_side
    rw [if_pos ⟨hsm0, hisset⟩, hscript]
    exact hrun
  have hneg : ¬ env1.select_ret < 0 := by omega
  have hzero : ¬ env1.select_ret = 0 := by omega
  refine ⟨s1, ?_, hclosed, ?_⟩
  · unfold wait_and_drain
    simp only
    rw [if_neg hneg, if_neg hzero, heth]
    simp only [hside, Option.map_some']
  · intro s2 h2
    have hs2 : s2.udp_server_sock < 0 := by
      rw [ensure_open_eth_keeps_udp cfg env2 s1 s2 h2, hclosed]
      decide
    have hens : ensure_open cfg env2 s1 = ensure_open_udp cfg env2 s2 := by
      simp only [ensure_open, h2]
    refine ⟨?_, ?_⟩
    · rw [hens]
      simp only [ensure_open_udp, hs2, if_true]
    · intro s3 d hcs hd
      have hens2 : ensure_open cfg env2 s1 = Run.returned { s3 with udp_server_sock := d } () := by
        rw [hens]
        simp only [ensure_open_udp, hs2, if_true, hcs]
      obtain ⟨added, hs3, hcount⟩ := create_socket_returned _ _ _ _ _ _ _ _ hcs
      refine ⟨hens2, ⟨added, by rw [hs3], hcount⟩, ?_, ?_, ?_⟩
      · simp only [main_iteration, hens2]
      · simp [isocks, hd]
      · have hh := le_highest_sock { s3 with udp_server_sock := d } hd
        simp only [select_call, hh, if_true]

theorem datagram_side_reopens_witness :
    ∃ s1 s3, wait_and_drain ⟨false, default_device_s, false, default_server_s, default_client_s⟩
          ⟨⟨3, 0, 0, 0, 0, 768⟩, ⟨0, [⟨2, 2, 17, ⟨2, 1235, 0⟩⟩], 5, 0⟩, 1, [4], [],
            [⟨2, 0, [8, 9], 0⟩, ⟨-1, 104, [], 0⟩]⟩
          (State.mk 3 4 none [])
        = some (Run.returned s1 ())
      ∧ s1.udp_server_sock = -1
      ∧ ensure_open ⟨false, default_device_s, false, default_server_s, default_client_s⟩
          ⟨⟨3, 0, 0, 0, 0, 768⟩, ⟨0, [⟨2, 2, 17, ⟨2, 1235, 0⟩⟩], 5, 0⟩, 0, [], [], []⟩ s1
        = Run.returned s3 ()
      ∧ s3.udp_server_sock = 5 ∧ (5 : Int) ∈ isocks s3 := by
  obtain ⟨s1, h1, h2, h3⟩ := datagram_side_reopens
    ⟨false, default_device_s, false, default_server_s, default_client_s⟩
    ⟨⟨3, 0, 0, 0, 0, 768⟩, ⟨0, [⟨2, 2, 17, ⟨2, 1235, 0⟩⟩], 5, 0⟩, 1, [4], [],
      [⟨2, 0, [8, 9], 0⟩, ⟨-1, 104, [], 0⟩]⟩
    ⟨⟨3, 0, 0, 0, 0, 768⟩, ⟨0, [⟨2, 2, 17, ⟨2, 1235, 0⟩⟩], 5, 0⟩, 0, [], [], []⟩
    (State.mk 3 4 none [])
    ((State.mk 3 4 none []).log (select_call (State.mk 3 4 none [])))
    [⟨2, 0, [8, 9], 0⟩] [] ⟨-1, 104, [], 0⟩
    (by decide) (by decide) (by decide) (by decide) rfl (by decide) (by decide)
  obtain ⟨x, s3, hx1, hx2, hx3⟩ : ∃ x s3,
      wait_and_drain ⟨false, default_device_s, false, default_server_s, default_client_s⟩
          ⟨⟨3, 0, 0, 0, 0, 768⟩, ⟨0, [⟨2, 2, 17, ⟨2, 1235, 0⟩⟩], 5, 0⟩, 1, [4], [],
            [⟨2, 0, [8, 9], 0⟩, ⟨-1, 104, [], 0⟩]⟩
          (State.mk 3 4 none [])
        = some (Run.returned x ())
      ∧ ensure_open_eth ⟨false, default_device_s, false, default_server_s, default_client_s⟩
          ⟨⟨3, 0, 0, 0, 0, 768⟩, ⟨0, [⟨2, 2, 17, ⟨2, 1235, 0⟩⟩], 5, 0⟩, 0, [], [], []⟩ x
        = Run.returned x ()
      ∧ create_socket x (c_str default_server_s) (c_str default_server_s) SOCK_DGRAM true
          ⟨0, [⟨2, 2, 17, ⟨2, 1235, 0⟩⟩], 5, 0⟩ = Run.returned s3 5 :=
    ⟨_, _, rfl, rfl, rfl⟩
  rw [h1] at hx1
  simp only [Option.some.injEq, Run.returned.injEq, and_true] at hx1
  subst hx1
  obtain ⟨h5, _, _, h6, _⟩ := (h3 s1 hx2).2 s3 5 hx3 (by decide)
  exact ⟨s1, _, h1, h2, h5, rfl, h6⟩

end Udp2Eth
